import Mathlib

/-!
Verification development for the VDEh bibliographic fusion engine
(`src/fusion/fusion_engine.py`, `src/fusion/utils.py`, `src/fusion/ollama_client.py`).

The Python code is shallowly embedded:
* pandas/Python scalar cell values become the inductive type `Value`
  (`none`/`NaN`/string/int/rational); `pd.notna`, Python truthiness and
  `int(...)` conversion are modelled explicitly;
* fallible code paths (Python exceptions such as `AttributeError` and
  `UnboundLocalError`) are modelled with `Except String`;
* Python floats are modelled as exact rationals `Rat`; every number that
  appears in the engine (similarity ratios `2*M/T`, page differences,
  thresholds 0.5/0.7/0.1/0.2) is an exact small rational, so the model and
  CPython agree on every comparison exercised here;
* `difflib.SequenceMatcher.ratio` is ported instruction by instruction
  (the b2j index with the autojunk popularity filter, the longest-match
  dynamic program with its tie-breaking, the non-junk extension phases,
  the recursive matching-block decomposition).
-/

set_option maxRecDepth 4000

/-- A pandas/Python cell value as seen by the fusion engine: Python `None`,
float NaN (pandas missing marker), a string, an int, or a float (exact
rational model). -/
inductive Value where
  | none
  | nan
  | str (s : String)
  | int (n : Int)
  | flt (q : Rat)
  deriving Repr, DecidableEq

/-- `pd.isna(v)`: true exactly for `None` and float NaN. -/
def Value.isna : Value → Bool
  | .none => true
  | .nan => true
  | _ => false

/-- `pd.notna(v)`. -/
def Value.notna (v : Value) : Bool := !v.isna

/-- Python truthiness of a cell value. `None` and `''` and `0` are falsy;
NaN is truthy (a nonzero float). -/
def Value.truthy : Value → Bool
  | .none => false
  | .nan => true
  | .str s => s ≠ ""
  | .int n => n ≠ 0
  | .flt q => q ≠ 0

/-- Python `str(v)` for the values the engine interpolates into reason
strings. Floats: CPython prints the shortest round-tripping decimal; we
print the exact rational (no claim in this development inspects a reason
string containing a float). -/
def Value.pyStr : Value → String
  | .none => "None"
  | .nan => "nan"
  | .str s => s
  | .int n => toString n
  | .flt q => toString q

/-- The whitespace set of Python `str.strip()` (ASCII part; the corpus has
no exotic Unicode spaces). -/
def pyIsSpace (c : Char) : Bool :=
  c = ' ' || c = '\t' || c = '\n' || c = '\r' || c = '\x0b' || c = '\x0c'

/-- Python `str.strip()` on a character list. -/
def pyStripList (cs : List Char) : List Char :=
  ((cs.dropWhile pyIsSpace).reverse.dropWhile pyIsSpace).reverse

/-- Python `str.strip()`. -/
def pyStrip (s : String) : String := String.mk (pyStripList s.data)

/-- Python `int(v)`: succeeds on ints, on floats (truncation toward zero;
NaN raises `ValueError`), and on strings that are an optionally signed
digit run surrounded by whitespace.  `None` raises `TypeError`.  The
callers catch `ValueError`/`TypeError`, so we return `Option`. -/
def Value.pyInt : Value → Option Int
  | .none => Option.none
  | .nan => Option.none
  | .int n => some n
  | .flt q => some (Int.tdiv q.num (q.den : Int))
  | .str s =>
      let t := pyStripList s.data
      let core := match t with
        | '-' :: rest => rest
        | '+' :: rest => rest
        | _ => t
      if core ≠ [] && core.all Char.isDigit then
        let n : Nat := core.foldl (fun acc c => acc * 10 + (c.toNat - 48)) 0
        some (match t with
          | '-' :: _ => -(n : Int)
          | _ => (n : Int))
      else Option.none

/-- Python `str.lower()` restricted to the ASCII letters plus the German
letters occurring in this corpus (the engine's data is German/English
bibliographic text). -/
def pyLowerChar (c : Char) : Char :=
  if 'A' ≤ c ∧ c ≤ 'Z' then Char.ofNat (c.toNat + 32)
  else if c = 'Ä' then 'ä' else if c = 'Ö' then 'ö' else if c = 'Ü' then 'ü'
  else c

/-- Python `str.upper()` (same character classes as `pyLowerChar`). -/
def pyUpperChar (c : Char) : Char :=
  if 'a' ≤ c ∧ c ≤ 'z' then Char.ofNat (c.toNat - 32)
  else if c = 'ä' then 'Ä' else if c = 'ö' then 'Ö' else if c = 'ü' then 'Ü'
  else c

/-- Python `str.lower()`. -/
def pyLower (s : String) : String := String.mk (s.data.map pyLowerChar)

/-- Python `str.upper()`. -/
def pyUpper (s : String) : String := String.mk (s.data.map pyUpperChar)

/-- Python `str.startswith` / Lean `String.startsWith`, character-wise
(the byte-position-based `String.startsWith` does not reduce in the
kernel). -/
def pyStartsWith (s t : String) : Bool := t.data.isPrefixOf s.data

/-- Python `s.split(sep, 1)[1]` (text after the first occurrence of `sep`),
`Option.none` when `sep` does not occur (`sep in s` is false). -/
def splitOnceAfter (sep : Char) : List Char → Option (List Char)
  | [] => Option.none
  | c :: rest => if c = sep then some rest else splitOnceAfter sep rest

/-! ## difflib.SequenceMatcher (CPython `Lib/difflib.py`, junk-free use)

`calculate_title_similarity` constructs `SequenceMatcher(None, t1, t2)`:
no `isjunk` callable, so `bjunk` is empty; `autojunk` is on, so characters
of `b` are dropped from the index `b2j` when `len(b) >= 200` and the
character occurs more than `len(b)//100 + 1` times. -/

/-- Indices (ascending) at which `c` occurs in `b` — the entry `b2j[c]`
before the autojunk filter. -/
def charOccurrences (b : List Char) (c : Char) : List Nat :=
  (List.range b.length).filter (fun j => b.get? j = some c)

/-- `b2j[c]` with the autojunk popularity filter applied. -/
def b2jEntry (b : List Char) (c : Char) : List Nat :=
  let occ := charOccurrences b c
  if b.length ≥ 200 ∧ occ.length > b.length / 100 + 1 then [] else occ

/-- `j2len.get(j-1, 0)` with Python's `-1` key never present: at `j = 0`
the lookup key is `-1`, which is absent from the dict. -/
def j2get (m : List (Nat × Nat)) (j : Nat) : Nat :=
  if j = 0 then 0 else ((m.lookup (j - 1)).getD 0)

/-- Inner loop of `find_longest_match`: one row `i`, scanning the (filtered,
ascending) occurrence list `js` of `a[i]` in `b[blo:bhi]`, reading the
previous row `j2len`, building the new row and updating the running best
`(besti, bestj, bestsize)` exactly when `k > bestsize`. -/
def flmInner (i : Nat) (j2len : List (Nat × Nat)) :
    List Nat → List (Nat × Nat) → Nat × Nat × Nat → List (Nat × Nat) × (Nat × Nat × Nat)
  | [], acc, best => (acc, best)
  | j :: js, acc, best =>
      let k := j2get j2len j + 1
      let acc' := acc ++ [(j, k)]
      let best' := if k > best.2.2 then (i + 1 - k, j + 1 - k, k) else best
      flmInner i j2len js acc' best'

/-- Outer loop of `find_longest_match`: rows `i = alo, …, ahi-1`. -/
def flmOuter (a b : List Char) (blo bhi : Nat) :
    List Nat → List (Nat × Nat) → Nat × Nat × Nat → Nat × Nat × Nat
  | [], _, best => best
  | i :: is, j2len, best =>
      let ai := (a.get? i).getD ' '
      let js := (b2jEntry b ai).filter (fun j => blo ≤ j ∧ j < bhi)
      let (row, best') := flmInner i j2len js [] best
      flmOuter a b blo bhi is row best'

/-- First (non-junk) extension phase: grow the best block leftwards while
the adjacent characters are equal (`bjunk` is empty, so the `not
isbjunk(...)` guard is vacuous).  `fuel` bounds the growth; the caller
passes `fuel = besti`, which is sound because `besti` decreases by one per
step and the loop stops at `besti = alo`. -/
def flmExtendFront (a b : List Char) (alo blo : Nat) :
    Nat → Nat × Nat × Nat → Nat × Nat × Nat
  | 0, best => best
  | fuel + 1, (besti, bestj, bestsize) =>
      if besti > alo ∧ bestj > blo ∧
          (a.get? (besti - 1)).getD ' ' = (b.get? (bestj - 1)).getD '!' then
        flmExtendFront a b alo blo fuel (besti - 1, bestj - 1, bestsize + 1)
      else (besti, bestj, bestsize)

/-- Second half of the non-junk extension phase: grow the block rightwards
while the next characters are equal.  `fuel` bounds the growth (called
with `fuel = ahi`, which is sound: the loop runs at most `ahi - besti -
bestsize` times). -/
def flmExtendBack (a b : List Char) (ahi bhi : Nat) :
    Nat → Nat × Nat × Nat → Nat × Nat × Nat
  | 0, best => best
  | fuel + 1, (besti, bestj, bestsize) =>
      if besti + bestsize < ahi ∧ bestj + bestsize < bhi ∧
          (a.get? (besti + bestsize)).getD ' ' = (b.get? (bestj + bestsize)).getD '!' then
        flmExtendBack a b ahi bhi fuel (besti, bestj, bestsize + 1)
      else (besti, bestj, bestsize)

/-- `SequenceMatcher.find_longest_match(alo, ahi, blo, bhi)` for the
junk-free configuration (the final junk-extension pair of loops is a no-op
because `bjunk` is empty and is omitted). -/
def findLongestMatch (a b : List Char) (alo ahi blo bhi : Nat) : Nat × Nat × Nat :=
  let core := flmOuter a b blo bhi (List.range' alo (ahi - alo)) [] (alo, blo, 0)
  flmExtendBack a b ahi bhi ahi (flmExtendFront a b alo blo core.1 core)

/-- Total size of the matching blocks of `get_matching_blocks` restricted to
the region `a[alo:ahi] × b[blo:bhi]`: the recursive leftmost-longest-block
decomposition.  `fuel ≥ ahi - alo` suffices (each recursive region is a
strictly shorter `a`-region). -/
def matchedTotal (a b : List Char) : Nat → Nat → Nat → Nat → Nat → Nat
  | 0, _, _, _, _ => 0
  | fuel + 1, alo, ahi, blo, bhi =>
      let (bi, bj, k) := findLongestMatch a b alo ahi blo bhi
      if k = 0 then 0
      else matchedTotal a b fuel alo bi blo bj + k + matchedTotal a b fuel (bi + k) ahi (bj + k) bhi

/-- `SequenceMatcher(None, a, b).ratio() = 2*M/T` where `M` is the total
matched size and `T = len(a) + len(b)`; `difflib._calculate_ratio` returns
`1.0` when `T = 0`. -/
def matcherScore (sa sb : String) : Rat :=
  let a := sa.data
  let b := sb.data
  let t := a.length + b.length
  if t = 0 then 1
  else mkRat (2 * (matchedTotal a b a.length 0 a.length 0 b.length) : Nat) t

/-- `FusionEngine.calculate_title_similarity` (fusion_engine.py:145-164):
0.0 when either input is falsy, else the `SequenceMatcher` ratio of the
lowercased, stripped strings. -/
def calculate_title_similarity (title1 title2 : Value) : Rat :=
  if ¬ title1.truthy ∨ ¬ title2.truthy then 0
  else matcherScore (pyStrip (pyLower title1.pyStr)) (pyStrip (pyLower title2.pyStr))

/-! ## Page-count utilities (`src/fusion/utils.py`) -/

/-- Numeric value of a digit run. -/
def digitsToNat (ds : List Char) : Nat :=
  ds.foldl (fun n c => n * 10 + (c.toNat - 48)) 0

/-- The page-unit alternation `(?:S\.|p\.|pages?|Seiten?)` of pattern 1,
matched case-insensitively at the head of `cs`.  The alternatives are
mutually exclusive at their first two characters, so alternation order
does not affect matchability. -/
def pageUnitAt (cs : List Char) : Bool :=
  let ls := cs.map pyLowerChar
  ["s.", "p.", "pages", "page", "seiten", "seite"].any
    (fun u => u.data.isPrefixOf ls)

/-- Attempt pattern 1 `(\d+)\s*(?:S\.|p\.|pages?|Seiten?)` at the head of
`cs`; returns the captured number. -/
def pagesPat1At (cs : List Char) : Option Nat :=
  let ds := cs.takeWhile Char.isDigit
  if ds = [] then Option.none
  else if pageUnitAt ((cs.drop ds.length).dropWhile pyIsSpace) then some (digitsToNat ds)
  else Option.none

/-- Attempt pattern 2 `(\d+)\s*$` at the head of `cs` (the corpus strings
contain no newline, so `$` is end-of-string). -/
def pagesPat2At (cs : List Char) : Option Nat :=
  let ds := cs.takeWhile Char.isDigit
  if ds = [] then Option.none
  else if (cs.drop ds.length).dropWhile pyIsSpace = [] then some (digitsToNat ds)
  else Option.none

/-- Attempt pattern 3 `(\d+)\s*[,:]` at the head of `cs`. -/
def pagesPat3At (cs : List Char) : Option Nat :=
  let ds := cs.takeWhile Char.isDigit
  if ds = [] then Option.none
  else
    match (cs.drop ds.length).dropWhile pyIsSpace with
    | c :: _ => if c = ',' ∨ c = ':' then some (digitsToNat ds) else Option.none
    | [] => Option.none

/-- All captures of a pattern over every suffix.  `re.findall` scans
non-overlapping and left-to-right; scanning every position additionally
collects suffixes of digit runs, whose values never exceed the full run's
value, so the maximum and the emptiness of the capture list — all
`extract_page_number` uses — are identical. -/
def scanCaptures (pat : List Char → Option Nat) : List Char → List Nat
  | [] => []
  | c :: rest =>
      match pat (c :: rest) with
      | some n => n :: scanCaptures pat rest
      | Option.none => scanCaptures pat rest

/-- `extract_page_number` (utils.py:149-188): `None` for missing/falsy
input, else the largest number matched by the three patterns. -/
def extract_page_number (pages : Value) : Option Nat :=
  if pages.isna ∨ ¬ pages.truthy then Option.none
  else
    let s := pyStripList pages.pyStr.data
    let numbers := scanCaptures pagesPat1At s ++ scanCaptures pagesPat2At s ++
      scanCaptures pagesPat3At s
    match numbers with
    | [] => Option.none
    | n :: ns => some (ns.foldl max n)

/-- `calculate_pages_match` (utils.py:191-222) at the default tolerance
0.1 used by every call site: `(False, None)` when either side fails to
parse, else the relative difference against the average (1.0 when the
average is zero) and the tolerance test. -/
def calculate_pages_match (pages1 pages2 : Value) : Bool × Option Rat :=
  match extract_page_number pages1, extract_page_number pages2 with
  | some n1, some n2 =>
      let diff : Nat := max n1 n2 - min n1 n2
      let diffPercent : Rat :=
        if n1 + n2 > 0 then mkRat (2 * diff : Nat) (n1 + n2) else 1
      (diffPercent ≤ mkRat 1 10, some diffPercent)
  | _, _ => (false, Option.none)

/-! ## String normalization (`src/fusion/utils.py`) -/

/-- Python `str.replace(old, new)`: left-to-right, non-overlapping.
`fuel ≥ cs.length` makes the recursion exact (each step consumes at least
one character; `old` is nonempty at every call site). -/
def pyReplaceAux (old new : List Char) : Nat → List Char → List Char
  | 0, cs => cs
  | _ + 1, [] => []
  | fuel + 1, c :: rest =>
      if old.isPrefixOf (c :: rest) then
        new ++ pyReplaceAux old new fuel ((c :: rest).drop old.length)
      else c :: pyReplaceAux old new fuel rest

/-- Python `str.replace(old, new)` on character lists. -/
def pyReplace (old new cs : List Char) : List Char :=
  pyReplaceAux old new cs.length cs

/-- `re.sub(r'\s*[-–—]\s*', ' ', s)`: each leftmost occurrence of optional
whitespace, one dash, optional whitespace becomes one space.  The leading
`\s*` cannot backtrack usefully (dashes are not whitespace), so the match
at each position is determined. -/
def dashSubAux : Nat → List Char → List Char
  | 0, cs => cs
  | _ + 1, [] => []
  | fuel + 1, c :: rest =>
      let ws := (c :: rest).takeWhile pyIsSpace
      match (c :: rest).drop ws.length with
      | d :: tail =>
          if d = '-' ∨ d = '–' ∨ d = '—' then
            ' ' :: dashSubAux fuel (tail.dropWhile pyIsSpace)
          else c :: dashSubAux fuel rest
      | [] => c :: dashSubAux fuel rest

/-- `re.sub(r'\s+', ' ', s)`. -/
def collapseWsAux : Nat → List Char → List Char
  | 0, cs => cs
  | _ + 1, [] => []
  | fuel + 1, c :: rest =>
      if pyIsSpace c then ' ' :: collapseWsAux fuel (rest.dropWhile pyIsSpace)
      else c :: collapseWsAux fuel rest

/-- Python `str.rstrip('.,:;')`. -/
def rstripPunct (cs : List Char) : List Char :=
  (cs.reverse.dropWhile (fun c => c = '.' ∨ c = ',' ∨ c = ':' ∨ c = ';')).reverse

/-- `normalize_string` (utils.py:17-65).  Unicode NFC normalization is
modelled as the identity (the corpus is stored in composed form); all
other steps are ported literally in source order. -/
def normalize_string (val : Value) : Option String :=
  if val.isna then Option.none
  else
    let s0 := pyStripList val.pyStr.data
    let s1 := s0.filter (fun c => c ≠ '¬')
    let s2 := s1.map pyLowerChar
    let s3 := pyReplace " & ".data " und ".data s2
    let s4 := pyReplace "&".data " und ".data s3
    let s5 := dashSubAux s4.length s4
    let s6 := pyReplace "oe".data "ö".data s5
    let s7 := pyReplace "ae".data "ä".data s6
    let s8 := pyReplace "ue".data "ü".data s7
    let s9 := pyReplace "ss".data "ß".data s8
    let s10 := pyStripList (collapseWsAux s9.length s9)
    some (String.mk (rstripPunct s10))

/-- `re.sub(r'\([^)]*\)', '', s)`: drop every parenthesized group (an
unclosed `(` has no match and is kept). -/
def dropParenAux : Nat → List Char → List Char
  | 0, cs => cs
  | _ + 1, [] => []
  | fuel + 1, c :: rest =>
      if c = '(' then
        let inner := rest.takeWhile (fun d => d ≠ ')')
        match rest.drop inner.length with
        | _ :: tail => dropParenAux fuel tail
        | [] => c :: dropParenAux fuel rest
      else c :: dropParenAux fuel rest

/-- `_normalize_publisher` (utils.py:68-83): text before the first colon,
parenthesized groups removed, stripped. -/
def normalize_publisher (val : String) : String :=
  let beforeColon :=
    if val.data.contains ':' then val.data.takeWhile (fun c => c ≠ ':') else val.data
  String.mk (pyStripList (dropParenAux beforeColon.length beforeColon))

/-! ## Records and fields -/

/-- The seven bibliographic fields. -/
inductive Fld where
  | title | authors | year | publisher | pages | isbn | issn
  deriving Repr, DecidableEq

/-- The loop order `['title', 'authors', 'year', 'publisher', 'pages',
'isbn', 'issn']` used by `merge_record`. -/
def allFields : List Fld :=
  [.title, .authors, .year, .publisher, .pages, .isbn, .issn]

/-- A source or candidate record: the seven-field flat dictionary built by
`merge_record` (fusion_engine.py:514-589). -/
structure Record where
  title : Value
  authors : Value
  year : Value
  publisher : Value
  pages : Value
  isbn : Value
  issn : Value
  deriving Repr, DecidableEq

/-- Field projection. -/
def Record.get (r : Record) : Fld → Value
  | .title => r.title
  | .authors => r.authors
  | .year => r.year
  | .publisher => r.publisher
  | .pages => r.pages
  | .isbn => r.isbn
  | .issn => r.issn

/-- The all-missing record. -/
def Record.empty : Record :=
  ⟨.none, .none, .none, .none, .none, .none, .none⟩

/-- `any(pd.notna(v) for v in data.values())`: the availability test of
fusion_engine.py:592-598. -/
def Record.available (r : Record) : Bool :=
  allFields.any (fun f => (r.get f).notna)

/-- `compare_fields` (utils.py:86-125): conflicts and confirmations over
title/authors/year/publisher, with the publisher-specific normalization.
Conflicts carry `(field, str(b), str(o))`, confirmations `(field,
str(b))`. -/
def compare_fields (base : Record) (other : Option Record) :
    List (Fld × String × String) × List (Fld × String) :=
  [Fld.title, Fld.authors, Fld.year, Fld.publisher].foldl
    (fun (acc : List (Fld × String × String) × List (Fld × String)) f =>
      let b := base.get f
      let o := match other with
        | some r => r.get f
        | Option.none => Value.none
      if b.notna ∧ o.notna then
        let bNorm := if f = Fld.publisher then
            normalize_string (.str (normalize_publisher b.pyStr))
          else normalize_string b
        let oNorm := if f = Fld.publisher then
            normalize_string (.str (normalize_publisher o.pyStr))
          else normalize_string o
        if bNorm = oNorm then (acc.1, acc.2 ++ [(f, b.pyStr)])
        else (acc.1 ++ [(f, b.pyStr, o.pyStr)], acc.2)
      else acc)
    ([], [])

/-! ## Python number formatting -/

/-- Round half-to-even to an integer (Python's rounding of exactly
representable halves; at the rationals exercised here it agrees with
CPython's double formatting). -/
def roundHalfEven1000 (x : Rat) : Int :=
  let p := x.num * 1000
  let q := (x.den : Int)
  let f := p.ediv q
  let r := p.emod q
  if 2 * r < q then f
  else if 2 * r > q then f + 1
  else if f % 2 = 0 then f else f + 1

/-- Python `f"{x:.1%}"` for `x ≥ 0`. -/
def formatPct1 (x : Rat) : String :=
  let n := roundHalfEven1000 x
  toString (n / 10) ++ "." ++ toString (n % 10) ++ "%"

/-- Python `round(x, 3)`. -/
def roundTo3 (x : Rat) : Rat :=
  mkRat (roundHalfEven1000 x) 1000

/-! ## FusionResult (`fusion_engine.py:21-118`)

`conflicts`, `confirmations` and the `fusion_*` tracking attributes are
stored by the Python code as `json.dumps` strings; the model stores the
structured content itself (the serialization adds nothing the engine ever
reads back). -/

/-- One entry of `build_tracking_data`'s `validation_metrics`. -/
structure ValidationMetric where
  title_similarity : Option Rat
  year_difference : Option Int
  valid : Bool
  validation_reason : String
  deriving Repr, DecidableEq

/-- The dictionary returned by `build_tracking_data`. -/
structure TrackingData where
  trigger_reason : String
  variants_available : List (String × Bool)
  conflicts_detected : Option (List (Fld × List (String × Value)))
  validation_metrics : List (String × ValidationMetric)
  deriving Repr, DecidableEq

/-- `FusionResult` (fusion_engine.py:21-118). -/
structure FusionResult where
  title : Value
  authors : Value
  year : Value
  publisher : Value
  pages : Value
  isbn : Value
  issn : Value
  title_source : Option String
  authors_source : Option String
  year_source : Option String
  publisher_source : Option String
  pages_source : Option String
  isbn_source : Option String
  issn_source : Option String
  conflicts : Option (List (Fld × String × String))
  confirmations : Option (List (Fld × String))
  ai_reasoning : Option String
  dnb_variant_selected : Option String
  dnb_match_rejected : Bool
  rejection_reason : Option String
  title_similarity_score : Option Rat
  pages_difference : Option Rat
  fusion_trigger_reason : Option String
  fusion_variants_available : Option (List (String × Bool))
  fusion_conflicts_detected : Option (List (Fld × List (String × Value)))
  fusion_validation_metrics : Option (List (String × ValidationMetric))
  fusion_selected_variant : Option String
  loc_match_rejected : Bool
  deriving Repr, DecidableEq

/-- The all-defaults `FusionResult()` (every keyword argument at its
default: values `None`, flags `False`). -/
def FusionResult.base : FusionResult :=
  ⟨.none, .none, .none, .none, .none, .none, .none,
   Option.none, Option.none, Option.none, Option.none, Option.none, Option.none, Option.none,
   Option.none, Option.none, Option.none, Option.none, false, Option.none,
   Option.none, Option.none, Option.none, Option.none, Option.none, Option.none,
   Option.none, false⟩

/-- Field-value projection. -/
def FusionResult.val (r : FusionResult) : Fld → Value
  | .title => r.title
  | .authors => r.authors
  | .year => r.year
  | .publisher => r.publisher
  | .pages => r.pages
  | .isbn => r.isbn
  | .issn => r.issn

/-- Source-tag projection. -/
def FusionResult.tag (r : FusionResult) : Fld → Option String
  | .title => r.title_source
  | .authors => r.authors_source
  | .year => r.year_source
  | .publisher => r.publisher_source
  | .pages => r.pages_source
  | .isbn => r.isbn_source
  | .issn => r.issn_source

/-- `setattr(result, field, v)`. -/
def FusionResult.setVal (r : FusionResult) (f : Fld) (v : Value) : FusionResult :=
  match f with
  | .title => { r with title := v }
  | .authors => { r with authors := v }
  | .year => { r with year := v }
  | .publisher => { r with publisher := v }
  | .pages => { r with pages := v }
  | .isbn => { r with isbn := v }
  | .issn => { r with issn := v }

/-- `setattr(result, f'{field}_source', t)`. -/
def FusionResult.setTag (r : FusionResult) (f : Fld) (t : Option String) : FusionResult :=
  match f with
  | .title => { r with title_source := t }
  | .authors => { r with authors_source := t }
  | .year => { r with year_source := t }
  | .publisher => { r with publisher_source := t }
  | .pages => { r with pages_source := t }
  | .isbn => { r with isbn_source := t }
  | .issn => { r with issn_source := t }

/-- The source-only `FusionResult` that Case 1 (fusion_engine.py:615-630)
builds and that the rejection paths extend: every field copied from the
VDEh record and every source tag set to `'vdeh'`. -/
def source_only (vdeh : Record) : FusionResult :=
  { FusionResult.base with
    title := vdeh.title, authors := vdeh.authors, year := vdeh.year,
    publisher := vdeh.publisher, pages := vdeh.pages, isbn := vdeh.isbn,
    issn := vdeh.issn,
    title_source := some "vdeh", authors_source := some "vdeh",
    year_source := some "vdeh", publisher_source := some "vdeh",
    pages_source := some "vdeh", isbn_source := some "vdeh",
    issn_source := some "vdeh" }

/-! ## validate_dnb_match (`fusion_engine.py:166-245`)

Parameters are inlined at their default values (every call site uses the
defaults): `min_title_similarity = 0.5`, `max_year_diff = 2`,
`max_pages_diff = 0.2`.  The function can raise `UnboundLocalError`: when
both page strings are `pd.notna` but at least one is falsy (e.g. the empty
string), the reasons block reads the local `pages_diff` that the guarded
pages check never assigned. -/

/-- The `year_diff` computed at fusion_engine.py:213-223: present only
when both years are `pd.notna` and `int(...)`-convertible. -/
def year_reject_diff (vdeh_data dnb_data : Record) : Option Nat :=
  if vdeh_data.year.notna ∧ dnb_data.year.notna then
    match vdeh_data.year.pyInt, dnb_data.year.pyInt with
    | some y1, some y2 => some (y1 - y2).natAbs
    | _, _ => Option.none
  else Option.none

/-- The `(pages_match, pages_diff)` pair of fusion_engine.py:229-230 as an
`Option`: `None` models the branch where the local `pages_diff` is never
assigned (both page fields truthy is the guard). -/
def pages_state_of (vdeh_data dnb_data : Record) : Option (Bool × Option Rat) :=
  if vdeh_data.pages.truthy ∧ dnb_data.pages.truthy then
    some (calculate_pages_match vdeh_data.pages dnb_data.pages)
  else Option.none

/-- The page-based rejection value of fusion_engine.py:232: `some d` when
`pages_diff` was computed and exceeds the 0.2 tolerance. -/
def pages_reject_of (vdeh_data dnb_data : Record) : Option Rat :=
  match pages_state_of vdeh_data dnb_data with
  | some (_, some d) => if d > mkRat 1 5 then some d else Option.none
  | _ => Option.none

def validate_dnb_match (vdeh_data dnb_data : Record) : Except String (Bool × String) :=
  let vdeh_title := vdeh_data.title
  let dnb_title := dnb_data.title
  if ¬ vdeh_title.truthy ∨ ¬ dnb_title.truthy then
    .ok (true, "Titel fehlt - keine Validierung möglich")
  else
    let title_sim := calculate_title_similarity vdeh_title dnb_title
    if title_sim < mkRat 1 2 then
      .ok (false, "Titel zu unterschiedlich (Similarity: " ++ formatPct1 title_sim ++ ")")
    else
      if (year_reject_diff vdeh_data dnb_data).getD 0 > 2 then
        .ok (false, "Jahr zu weit weg (" ++
          toString ((year_reject_diff vdeh_data dnb_data).getD 0) ++ " Jahre Differenz)")
      else
        match pages_reject_of vdeh_data dnb_data with
        | some d =>
            .ok (false, "Seitenzahl zu unterschiedlich (" ++ formatPct1 d ++ " Differenz)")
        | Option.none =>
            let reasons1 := ["Titel: " ++ formatPct1 title_sim] ++
              (if vdeh_data.year.notna ∧ dnb_data.year.notna then
                ["Jahr: " ++ vdeh_data.year.pyStr ++ " vs " ++ dnb_data.year.pyStr] else [])
            if vdeh_data.pages.notna ∧ dnb_data.pages.notna then
              match pages_state_of vdeh_data dnb_data with
              | Option.none =>
                  .error "UnboundLocalError: cannot access local variable pages_diff where it is not associated with a value"
              | some (_, pdOpt) =>
                  let reasons2 := reasons1 ++
                    (match pdOpt with
                     | some d => ["Pages: " ++ formatPct1 d ++ " diff"]
                     | Option.none => [])
                  .ok (true, String.intercalate ", " reasons2)
            else .ok (true, String.intercalate ", " reasons1)

/-- Characterization of the year rejection guard. -/
theorem year_reject_iff (v d : Record) :
    (year_reject_diff v d).getD 0 > 2 ↔
      (∃ y1 y2 : Int, v.year.notna = true ∧ d.year.notna = true ∧
        v.year.pyInt = some y1 ∧ d.year.pyInt = some y2 ∧ (y1 - y2).natAbs > 2) := by
  unfold year_reject_diff
  split
  · rename_i hna
    rcases hp1 : v.year.pyInt with _ | y1
    · simp [hp1]
    · rcases hp2 : d.year.pyInt with _ | y2
      · simp [hp1, hp2]
      · simp only [hp1, hp2, Option.getD_some]
        constructor
        · intro hgt
          exact ⟨y1, y2, hna.1, hna.2, rfl, rfl, hgt⟩
        · rintro ⟨z1, z2, _, _, hz1, hz2, hgt⟩
          injection hz1 with h1
          injection hz2 with h2
          subst h1; subst h2
          exact hgt
  · rename_i hna
    simp only [Option.getD_none]
    constructor
    · omega
    · rintro ⟨z1, z2, h1, h2, _⟩
      exact absurd ⟨h1, h2⟩ hna

/-- Characterization of the pages rejection guard. -/
theorem pages_reject_some_iff (v d : Record) (q : Rat) :
    pages_reject_of v d = some q ↔
      (v.pages.truthy = true ∧ d.pages.truthy = true ∧
        (calculate_pages_match v.pages d.pages).2 = some q ∧ q > mkRat 1 5) := by
  unfold pages_reject_of pages_state_of
  by_cases hpt : v.pages.truthy = true ∧ d.pages.truthy = true
  · rw [if_pos hpt]
    rcases hcp : calculate_pages_match v.pages d.pages with ⟨mb, dq⟩
    rcases dq with _ | q0
    · constructor
      · intro h
        exact Option.noConfusion h
      · rintro ⟨_, _, hq, _⟩
        exact Option.noConfusion (hq : (Option.none : Option Rat) = some q)
    · constructor
      · intro h
        have h2 : (if q0 > mkRat 1 5 then some q0 else Option.none) = some q := h
        split at h2
        · rename_i hq5
          injection h2 with h0
          subst h0
          exact ⟨hpt.1, hpt.2, rfl, hq5⟩
        · exact Option.noConfusion h2
      · rintro ⟨_, _, hq, hgt⟩
        have h0 : q0 = q := by
          have h3 := (hq : (some q0 : Option Rat) = some q)
          injection h3
        subst h0
        show (if q0 > mkRat 1 5 then some q0 else Option.none) = some q0
        rw [if_pos hgt]
  · rw [if_neg hpt]
    constructor
    · intro h
      exact Option.noConfusion h
    · rintro ⟨h1, h2, _⟩
      exact absurd ⟨h1, h2⟩ hpt

/-! ## parse_ai_choice (`fusion_engine.py:367-397`) -/

def parse_ai_choice (response : Option String) : String × String :=
  match response with
  | Option.none => ("KEINE", "KI keine Antwort")
  | some resp =>
      if resp = "" then ("KEINE", "KI keine Antwort")
      else
        let r := pyUpper (pyStrip resp)
        let reasonAfterDash :=
          match splitOnceAfter '-' resp.data with
          | some tail => String.mk (pyStripList tail)
          | Option.none => ""
        if pyStartsWith r "A&B" then
          ("A", "Beide passend, ID bevorzugt. " ++ reasonAfterDash)
        else
          match ["A", "B", "C", "D", "E", "F"].find? (fun c =>
              pyStartsWith r (c ++ " ") || pyStartsWith r (c ++ "-") ||
              pyStartsWith r (c ++ "\n") || r = c) with
          | some c => (c, reasonAfterDash)
          | Option.none =>
              if pyStartsWith r "KEINE" || pyStartsWith r "KEIN" then
                ("KEINE", if reasonAfterDash ≠ "" then reasonAfterDash
                  else "Keine Variante passt")
              else ("KEINE", "Unklare KI-Antwort: " ++ resp)

/-! ## build_tracking_data (`fusion_engine.py:399-498`) -/

/-- The `'A' ↦ 'dnb_id', …` rename used twice in `build_tracking_data`. -/
def variantName (choice : String) : String :=
  if choice = "A" then "dnb_id" else if choice = "B" then "dnb_ta"
  else if choice = "C" then "dnb_ty" else if choice = "D" then "loc_id"
  else if choice = "E" then "loc_ta" else if choice = "F" then "loc_ty"
  else choice

/-- One field's entry of `conflicts_detected`: the `field_values` dict and
whether it counts as a conflict (more than one distinct non-empty
lowercased rendering, where falsy values render as the empty string). -/
def trackingFieldValues (vdeh_data : Record) (variants : List (String × Option Record))
    (f : Fld) : List (String × Value) :=
  ("vdeh", if (vdeh_data.get f).notna then vdeh_data.get f else Value.none) ::
    (variants.filterMap (fun cd =>
      match cd.2 with
      | some r => some (variantName cd.1, if (r.get f).notna then r.get f else Value.none)
      | Option.none => Option.none))

/-- `len(unique_values) > 1` after lowercasing, mapping falsy values to
`''` and discarding `''`. -/
def trackingHasConflict (fieldValues : List (String × Value)) : Bool :=
  (((fieldValues.map (fun p => if p.2.truthy then pyLower p.2.pyStr else "")).filter
    (fun s => s ≠ "")).dedup).length > 1

/-- The `validation_metrics` loop; threads the possible
`UnboundLocalError` of `validate_dnb_match`. -/
def buildMetrics (vdeh_data : Record) :
    List (String × Option Record) → Except String (List (String × ValidationMetric))
  | [] => .ok []
  | (choice, data) :: rest =>
      match data with
      | some r =>
          if r.available then
            match validate_dnb_match vdeh_data r with
            | .error e => .error e
            | .ok vr =>
                match buildMetrics vdeh_data rest with
                | .error e => .error e
                | .ok ms =>
                    let title_sim := calculate_title_similarity vdeh_data.title r.title
                    let year_diff : Option Nat :=
                      if vdeh_data.year.notna ∧ r.year.notna then
                        match vdeh_data.year.pyInt, r.year.pyInt with
                        | some y1, some y2 => some (y1 - y2).natAbs
                        | _, _ => Option.none
                      else Option.none
                    .ok ((variantName choice,
                      { title_similarity :=
                          if title_sim ≠ 0 then some (roundTo3 title_sim) else Option.none,
                        year_difference := year_diff.map (fun n => (n : Int)),
                        valid := vr.1,
                        validation_reason := vr.2 }) :: ms)
          else buildMetrics vdeh_data rest
      | Option.none => buildMetrics vdeh_data rest

def build_tracking_data (vdeh_data : Record) (variants : List (String × Option Record))
    (trigger_reason : String) : Except String TrackingData :=
  let variants_available := variants.map (fun cd =>
    (cd.1, match cd.2 with
      | some r => r.available
      | Option.none => false))
  let conflicts_detected :=
    [Fld.title, Fld.authors, Fld.year, Fld.publisher].filterMap (fun f =>
      let fv := trackingFieldValues vdeh_data variants f
      if fv.length > 1 ∧ trackingHasConflict fv then some (f, fv) else Option.none)
  match buildMetrics vdeh_data variants with
  | .error e => .error e
  | .ok metrics =>
      .ok { trigger_reason := trigger_reason,
            variants_available := variants_available,
            conflicts_detected :=
              if conflicts_detected ≠ [] then some conflicts_detected else Option.none,
            validation_metrics := metrics }

/-! ## merge_record (`fusion_engine.py:500-861`)

`merge_record` first projects the pandas row into the seven-field
dictionaries `vdeh_data, dnb_id, dnb_ta, dnb_ty, loc_id, loc_ta, loc_ty`
(lines 514-589, a direct column renaming); the model takes those records
as inputs.  The arbitration response is an oracle input: the prompt text
(`build_ai_prompt`) and the detected language only feed the oracle and
carry no information back into the engine.  A client failure
(`OllamaUnavailableError`) propagates out of `merge_record` and is
modelled separately with `ollama_query`. -/

/-- Fusion-engine configuration (fusion_engine.py:124-143).
`variant_priority` is never read by `merge_record` and is omitted. -/
structure FusionConfig where
  ty_similarity_threshold : Rat
  enable_loc : Bool
  deriving Repr, DecidableEq

/-- The three control-flow cases of `merge_record` after the availability
collapse: Case 1 (no data, line 614), Case 1.5 (title-year gate, line
633: `dnb_id is None and dnb_ta is None and dnb_ty is not None` — the LoC
slots are not consulted), and the arbitration fall-through (line 745). -/
inductive MergeCase where
  | noData
  | tyGate
  | aiSelect
  deriving Repr, DecidableEq

def merge_case (dnb_id dnb_ta dnb_ty loc_id loc_ta loc_ty : Option Record) : MergeCase :=
  if dnb_id = Option.none ∧ dnb_ta = Option.none ∧ dnb_ty = Option.none ∧
      loc_id = Option.none ∧ loc_ta = Option.none ∧ loc_ty = Option.none then
    .noData
  else if dnb_id = Option.none ∧ dnb_ta = Option.none ∧ dnb_ty ≠ Option.none then
    .tyGate
  else .aiSelect

/-- The body of the title-year enrichment loop (fusion_engine.py:706-722). -/
def ty_enrich_step (vdeh_data dnb_ty : Record) (res : FusionResult) (f : Fld) : FusionResult :=
  let v_val := vdeh_data.get f
  let ty_val := dnb_ty.get f
  if v_val.notna then (res.setVal f v_val).setTag f (some "vdeh")
  else if ty_val.notna then (res.setVal f ty_val).setTag f (some "dnb_title_year")
  else (res.setVal f Value.none).setTag f Option.none

/-- Case 1.5 (fusion_engine.py:632-723): the title-year similarity gate
and, on acceptance, the enrichment-only field loop. -/
def ty_fallback (cfg : FusionConfig) (vdeh_data dnb_ty : Record) : FusionResult :=
  let similarity := calculate_title_similarity vdeh_data.title dnb_ty.title
  let pm := calculate_pages_match vdeh_data.pages dnb_ty.pages
  let pages_match := pm.1
  let pages_diff := pm.2
  let accept_match :=
    similarity ≥ cfg.ty_similarity_threshold ∨ (similarity ≥ mkRat 1 2 ∧ pages_match)
  if ¬ accept_match then
    let reason := "Similarity: " ++ formatPct1 similarity ++
      (match pages_diff with
       | some d => ", Pages mismatch: " ++ formatPct1 d ++ " diff"
       | Option.none => "")
    { source_only vdeh_data with
      dnb_match_rejected := true,
      rejection_reason := some ("TY-Match zu unsicher (" ++ reason ++ ")"),
      title_similarity_score := some similarity,
      pages_difference := pages_diff }
  else
    let reason :=
      if similarity ≥ cfg.ty_similarity_threshold then
        "Similarity: " ++ formatPct1 similarity
      else
        "Similarity: " ++ formatPct1 similarity ++ ", Pages-Match bestätigt (" ++
          vdeh_data.pages.pyStr ++ " ≈ " ++ dnb_ty.pages.pyStr ++ ")"
    let start := { FusionResult.base with
      dnb_variant_selected := some "title_year",
      ai_reasoning := some ("TY-Variante als Fallback (kein ID/TA verfügbar, " ++
        reason ++ ")"),
      title_similarity_score := some similarity,
      pages_difference := pages_diff }
    allFields.foldl (ty_enrich_step vdeh_data dnb_ty) start

/-- The `TypeError` raised by Python `x[:50]` in the rejection log line
(fusion_engine.py:669): the conditional `x[:50] if x else ''`
short-circuits falsy values, and slicing a string succeeds, but a truthy
float (NaN included) or int is not subscriptable. -/
def Value.sliceTypeErr : Value → Option String
  | .nan => some "TypeError: float object is not subscriptable"
  | .flt q => if q = 0 then Option.none
      else some "TypeError: float object is not subscriptable"
  | .int n => if n = 0 then Option.none
      else some "TypeError: int object is not subscriptable"
  | _ => Option.none

/-- Case 1.5 as actually run (fusion_engine.py:632-723): before the
rejection `FusionResult` is returned, the `logger.info` call at lines
667-671 evaluates `vdeh_title[:50] if vdeh_title else ''` and then
`dnb_ty_title[:50] if dnb_ty_title else ''`, so a truthy non-string
title on the reject path raises `TypeError` instead of returning.  The
accept paths log without slicing and always return. -/
def ty_fallback_run (cfg : FusionConfig) (vdeh_data dnb_ty : Record) :
    Except String FusionResult :=
  let similarity := calculate_title_similarity vdeh_data.title dnb_ty.title
  let pm := calculate_pages_match vdeh_data.pages dnb_ty.pages
  let pages_match := pm.1
  let accept_match :=
    similarity ≥ cfg.ty_similarity_threshold ∨ (similarity ≥ mkRat 1 2 ∧ pages_match)
  if ¬ accept_match then
    match vdeh_data.title.sliceTypeErr with
    | some e => .error e
    | Option.none =>
        match dnb_ty.title.sliceTypeErr with
        | some e => .error e
        | Option.none => .ok (ty_fallback cfg vdeh_data dnb_ty)
  else .ok (ty_fallback cfg vdeh_data dnb_ty)

theorem ty_fallback_run_ok {cfg : FusionConfig} {v t : Record} {r : FusionResult}
    (h : ty_fallback_run cfg v t = .ok r) : r = ty_fallback cfg v t := by
  simp only [ty_fallback_run] at h
  split at h
  · split at h
    · exact Except.noConfusion h
    · split at h
      · exact Except.noConfusion h
      · injection h with h
        exact h.symm
  · injection h with h
    exact h.symm

/-- The body of the arbitration enrichment loop (fusion_engine.py:836-859).
Both branches of the Python `if selected_variant.startswith('loc')` at
line 852-855 assign `selected_variant`, so the branch collapses. -/
def ai_enrich_step (vdeh_data selected_data : Record)
    (confirmations : List (Fld × String)) (selected_variant : String)
    (res : FusionResult) (f : Fld) : FusionResult :=
  let v_val := vdeh_data.get f
  let d_val := selected_data.get f
  if v_val.notna then
    (res.setVal f v_val).setTag f
      (some (if d_val.notna ∧ confirmations.any (fun p => p.1 = f) then
        "confirmed" else "vdeh"))
  else if d_val.notna then
    (res.setVal f d_val).setTag f (some selected_variant)
  else
    (res.setVal f Value.none).setTag f
      (if f = Fld.isbn ∨ f = Fld.issn then Option.none else some "vdeh")

/-- `variant_mapping` (fusion_engine.py:779-788) with its `.get(choice,
('id', dnb_id))` default. -/
def variant_mapping (choice : String)
    (dnb_id dnb_ta dnb_ty loc_id loc_ta loc_ty : Option Record) :
    String × Option Record :=
  if choice = "A" then ("dnb_id", dnb_id)
  else if choice = "B" then ("dnb_title_author", dnb_ta)
  else if choice = "C" then ("dnb_title_year", dnb_ty)
  else if choice = "D" then ("loc_id", loc_id)
  else if choice = "E" then ("loc_title_author", loc_ta)
  else if choice = "F" then ("loc_title_year", loc_ty)
  else ("id", dnb_id)

/-- Cases 2-4 (fusion_engine.py:725-861): tracking, arbitration-response
parsing, the KEINE rejection, the independent validator, and the
enrichment merge.  The `.error` values model the Python exceptions:
`variant_mapping` can select an unavailable (`None`) variant, and
`validate_dnb_match(vdeh_data, None)` then raises `AttributeError`. -/
def ai_select (vdeh_data : Record)
    (dnb_id dnb_ta dnb_ty loc_id loc_ta loc_ty : Option Record)
    (response : Option String) : Except String FusionResult :=
  let variants := [("A", dnb_id), ("B", dnb_ta), ("C", dnb_ty),
    ("D", loc_id), ("E", loc_ta), ("F", loc_ty)]
  let trigger :=
    if dnb_id.isSome ∨ dnb_ta.isSome ∨ loc_id.isSome ∨ loc_ta.isSome then
      "multiple_sources_available"
    else "no_ai_needed"
  match build_tracking_data vdeh_data variants trigger with
  | .error e => .error e
  | .ok tracking =>
      let pc := parse_ai_choice response
      let choice := pc.1
      let reason := pc.2
      if choice = "KEINE" then
        .ok { source_only vdeh_data with
          ai_reasoning := some ("KI: " ++ reason),
          dnb_match_rejected := true,
          rejection_reason := some reason,
          fusion_trigger_reason := some tracking.trigger_reason,
          fusion_variants_available := some tracking.variants_available,
          fusion_conflicts_detected := tracking.conflicts_detected,
          fusion_validation_metrics := some tracking.validation_metrics,
          fusion_selected_variant := some "KEINE" }
      else
        let sel := variant_mapping choice dnb_id dnb_ta dnb_ty loc_id loc_ta loc_ty
        let selected_variant := sel.1
        match sel.2 with
        | Option.none => .error "AttributeError: NoneType object has no attribute get"
        | some selected_data =>
            match validate_dnb_match vdeh_data selected_data with
            | .error e => .error e
            | .ok vres =>
                let is_valid := vres.1
                let validation_reason := vres.2
                if ¬ is_valid then
                  .ok { source_only vdeh_data with
                    ai_reasoning := some ("KI wählte " ++ selected_variant ++
                      ", aber Validierung fehlgeschlagen"),
                    dnb_match_rejected := true,
                    rejection_reason := some ("Validierung: " ++ validation_reason) }
                else
                  let cc := compare_fields vdeh_data (some selected_data)
                  let conflicts := cc.1
                  let confirmations := cc.2
                  let start := { FusionResult.base with
                    conflicts := if conflicts ≠ [] then some conflicts else Option.none,
                    confirmations :=
                      if confirmations ≠ [] then some confirmations else Option.none,
                    ai_reasoning := some ("KI Entscheidung: Variante " ++ choice ++
                      " (" ++ selected_variant ++ ") gewählt. " ++ reason ++
                      ". Validierung: " ++ validation_reason),
                    dnb_variant_selected :=
                      if choice = "A" ∨ choice = "B" ∨ choice = "C" then
                        some selected_variant
                      else Option.none,
                    loc_match_rejected := false,
                    fusion_trigger_reason := some tracking.trigger_reason,
                    fusion_variants_available := some tracking.variants_available,
                    fusion_conflicts_detected := tracking.conflicts_detected,
                    fusion_validation_metrics := some tracking.validation_metrics,
                    fusion_selected_variant := some choice }
                  .ok (allFields.foldl
                    (ai_enrich_step vdeh_data selected_data confirmations selected_variant)
                    start)

/-- The DNB availability collapse (fusion_engine.py:592-605): a variant
with no `pd.notna` field is set to `None`. -/
def dnb_collapse (r : Record) : Option Record :=
  if r.available then some r else Option.none

/-- The LoC availability collapse (fusion_engine.py:596-611): additionally
gated on `enable_loc`. -/
def loc_collapse (cfg : FusionConfig) (r : Record) : Option Record :=
  if cfg.enable_loc ∧ r.available then some r else Option.none

/-- `merge_record` (fusion_engine.py:500-861) on the extracted records:
availability collapse, then the three-way case split. -/
def merge_record (cfg : FusionConfig)
    (vdeh_data dnb_id0 dnb_ta0 dnb_ty0 loc_id0 loc_ta0 loc_ty0 : Record)
    (response : Option String) : Except String FusionResult :=
  let dnb_id := dnb_collapse dnb_id0
  let dnb_ta := dnb_collapse dnb_ta0
  let dnb_ty := dnb_collapse dnb_ty0
  let loc_id := loc_collapse cfg loc_id0
  let loc_ta := loc_collapse cfg loc_ta0
  let loc_ty := loc_collapse cfg loc_ty0
  match merge_case dnb_id dnb_ta dnb_ty loc_id loc_ta loc_ty, dnb_ty with
  | .noData, _ => .ok (source_only vdeh_data)
  | .tyGate, some ty => ty_fallback_run cfg vdeh_data ty
  | .tyGate, Option.none => .ok (source_only vdeh_data)
  | .aiSelect, _ => ai_select vdeh_data dnb_id dnb_ta dnb_ty loc_id loc_ta loc_ty response

/-! ## OllamaClient.query (`src/fusion/ollama_client.py:85-161`)

The transport is modelled as a trace `attempts : Nat → OllamaAttempt`
giving the outcome of each HTTP post.  The returned wait list records the
backoff sleeps actually performed (the code sleeps after every failed
attempt, including the last). -/

/-- Outcome of one `requests.post` call. -/
inductive OllamaAttempt where
  | httpOk (body : String)
  | httpErr (status : Nat)
  | timeout
  | connError
  | otherError (msg : String)
  deriving Repr, DecidableEq

/-- Transport failures caught by the dedicated
`(requests.exceptions.Timeout, requests.exceptions.ConnectionError)`
handler. -/
def OllamaAttempt.isTransportFailure : OllamaAttempt → Bool
  | .timeout => true
  | .connError => true
  | _ => false

/-- The `last_err` rendering used in the final exception message
(`str(e)`; nominal strings for the transport exceptions). -/
def attemptErrStr : OllamaAttempt → String
  | .httpOk _ => ""
  | .httpErr s => "HTTP " ++ toString s
  | .timeout => "timeout"
  | .connError => "connection error"
  | .otherError m => m

/-- Result of `query`: a response (or `None` in soft-fail mode) or the
raised `OllamaUnavailableError`. -/
inductive QueryOutcome where
  | ok (response : Option String)
  | unavailable (msg : String)
  deriving Repr, DecidableEq

/-- The retry loop `for attempt in range(max_retries)` (ollama_client.py:
119-154): on HTTP 200 the stripped body is returned at once; every other
outcome records `last_err` and sleeps `min(base * 2**attempt, 15)`. -/
def query_loop (attempts : Nat → OllamaAttempt) (backoff_base : Nat) :
    Nat → Nat → Option String → List Nat →
    Option String × Option String × List Nat
  | _, 0, last_err, waits => (Option.none, last_err, waits)
  | attempt, rem + 1, last_err, waits =>
      match attempts attempt with
      | .httpOk body => (some (pyStrip body), last_err, waits)
      | a =>
          query_loop attempts backoff_base (attempt + 1) rem
            (some (attemptErrStr a))
            (waits ++ [min (backoff_base * 2 ^ attempt) 15])

/-- `OllamaClient.query` (ollama_client.py:85-161): the loop, then either
the `OllamaUnavailableError` raise (hard-fail) or `None` (soft-fail).
Returns the outcome together with the performed backoff sleeps. -/
def ollama_query (max_retries backoff_base : Nat) (abort_on_timeout : Bool)
    (attempts : Nat → OllamaAttempt) : QueryOutcome × List Nat :=
  match query_loop attempts backoff_base 0 max_retries Option.none [] with
  | (some resp, _, waits) => (.ok (some resp), waits)
  | (Option.none, last_err, waits) =>
      if abort_on_timeout then
        (.unavailable ("Ollama unavailable after " ++ toString max_retries ++
          " attempts: " ++ last_err.getD "None"), waits)
      else (.ok Option.none, waits)

/-! ## Structure lemmas -/

theorem setVal_val_self (r : FusionResult) (f : Fld) (v : Value) :
    (r.setVal f v).val f = v := by
  cases f <;> rfl

theorem setVal_val_ne (r : FusionResult) {g f : Fld} (v : Value) (h : g ≠ f) :
    (r.setVal g v).val f = r.val f := by
  cases g <;> cases f <;> first | rfl | exact absurd rfl h

theorem setTag_val (r : FusionResult) (g f : Fld) (t : Option String) :
    (r.setTag g t).val f = r.val f := by
  cases g <;> cases f <;> rfl

theorem setTag_tag_self (r : FusionResult) (f : Fld) (t : Option String) :
    (r.setTag f t).tag f = t := by
  cases f <;> rfl

theorem setTag_tag_ne (r : FusionResult) {g f : Fld} (t : Option String) (h : g ≠ f) :
    (r.setTag g t).tag f = r.tag f := by
  cases g <;> cases f <;> first | rfl | exact absurd rfl h

theorem setVal_tag (r : FusionResult) (g f : Fld) (v : Value) :
    (r.setVal g v).tag f = r.tag f := by
  cases g <;> cases f <;> rfl

theorem source_only_val (v : Record) (f : Fld) : (source_only v).val f = v.get f := by
  cases f <;> rfl

theorem source_only_tag (v : Record) (f : Fld) : (source_only v).tag f = some "vdeh" := by
  cases f <;> rfl

/-- A fold over a duplicate-free field list where each step touches only
its own field: the projection at `f` is the step's value at `f`,
independent of the accumulator. -/
theorem foldl_proj_unique {α : Type} (π : FusionResult → Fld → α)
    (step : FusionResult → Fld → FusionResult) (valueFor : Fld → α)
    (hne : ∀ r g f, g ≠ f → π (step r g) f = π r f)
    (hself : ∀ r f, π (step r f) f = valueFor f) :
    ∀ (l : List Fld), l.Nodup → ∀ (r : FusionResult) (f : Fld), f ∈ l →
      π (l.foldl step r) f = valueFor f := by
  intro l
  induction l with
  | nil => intro _ r f hf; cases hf
  | cons g rest ih =>
      intro hnd r f hf
      simp only [List.foldl_cons]
      rcases List.mem_cons.mp hf with hgf | hfr
      · subst hgf
        have hnot : f ∉ rest := (List.nodup_cons.mp hnd).1
        have hrest : ∀ (rs : List Fld), f ∉ rs → ∀ (r0 : FusionResult),
            π (rs.foldl step r0) f = π r0 f := by
          intro rs
          induction rs with
          | nil => intro _ r0; rfl
          | cons g0 rs0 ih0 =>
              intro hn r0
              have hg0 : g0 ≠ f := fun he => hn (he ▸ List.mem_cons_self g0 rs0)
              simp only [List.foldl_cons]
              rw [ih0 (fun hm => hn (List.mem_cons_of_mem g0 hm)) (step r0 g0),
                hne r0 g0 f hg0]
        rw [hrest rest hnot (step r f), hself r f]
      · exact ih (List.nodup_cons.mp hnd).2 (step r g) f hfr

theorem ty_enrich_step_val_ne (v t : Record) (r : FusionResult) {g f : Fld} (h : g ≠ f) :
    (ty_enrich_step v t r g).val f = r.val f := by
  simp only [ty_enrich_step]
  split
  · rw [setTag_val, setVal_val_ne _ _ h]
  · split
    · rw [setTag_val, setVal_val_ne _ _ h]
    · rw [setTag_val, setVal_val_ne _ _ h]

theorem ty_enrich_step_val_self (v t : Record) (r : FusionResult) (f : Fld) :
    (ty_enrich_step v t r f).val f =
      (if (v.get f).notna then v.get f
       else if (t.get f).notna then t.get f else Value.none) := by
  simp only [ty_enrich_step]
  split
  · rw [setTag_val, setVal_val_self]
  · split
    · rw [setTag_val, setVal_val_self]
    · rw [setTag_val, setVal_val_self]

theorem ty_enrich_step_tag_ne (v t : Record) (r : FusionResult) {g f : Fld} (h : g ≠ f) :
    (ty_enrich_step v t r g).tag f = r.tag f := by
  simp only [ty_enrich_step]
  split
  · rw [setTag_tag_ne _ _ h, setVal_tag]
  · split
    · rw [setTag_tag_ne _ _ h, setVal_tag]
    · rw [setTag_tag_ne _ _ h, setVal_tag]

theorem ty_enrich_step_tag_self (v t : Record) (r : FusionResult) (f : Fld) :
    (ty_enrich_step v t r f).tag f =
      (if (v.get f).notna then some "vdeh"
       else if (t.get f).notna then some "dnb_title_year" else Option.none) := by
  simp only [ty_enrich_step]
  split
  · rw [setTag_tag_self]
  · split
    · rw [setTag_tag_self]
    · rw [setTag_tag_self]

theorem ai_enrich_step_val_ne (v d : Record) (cf : List (Fld × String)) (sv : String)
    (r : FusionResult) {g f : Fld} (h : g ≠ f) :
    (ai_enrich_step v d cf sv r g).val f = r.val f := by
  simp only [ai_enrich_step]
  split
  · rw [setTag_val, setVal_val_ne _ _ h]
  · split
    · rw [setTag_val, setVal_val_ne _ _ h]
    · rw [setTag_val, setVal_val_ne _ _ h]

theorem ai_enrich_step_val_self (v d : Record) (cf : List (Fld × String)) (sv : String)
    (r : FusionResult) (f : Fld) :
    (ai_enrich_step v d cf sv r f).val f =
      (if (v.get f).notna then v.get f
       else if (d.get f).notna then d.get f else Value.none) := by
  simp only [ai_enrich_step]
  split
  · rw [setTag_val, setVal_val_self]
  · split
    · rw [setTag_val, setVal_val_self]
    · rw [setTag_val, setVal_val_self]

theorem ai_enrich_step_tag_ne (v d : Record) (cf : List (Fld × String)) (sv : String)
    (r : FusionResult) {g f : Fld} (h : g ≠ f) :
    (ai_enrich_step v d cf sv r g).tag f = r.tag f := by
  simp only [ai_enrich_step]
  split
  · rw [setTag_tag_ne _ _ h, setVal_tag]
  · split
    · rw [setTag_tag_ne _ _ h, setVal_tag]
    · rw [setTag_tag_ne _ _ h, setVal_tag]

theorem ai_enrich_step_tag_self (v d : Record) (cf : List (Fld × String)) (sv : String)
    (r : FusionResult) (f : Fld) :
    (ai_enrich_step v d cf sv r f).tag f =
      (if (v.get f).notna then
        some (if (d.get f).notna ∧ cf.any (fun p => p.1 = f) then "confirmed" else "vdeh")
       else if (d.get f).notna then some sv
       else if f = Fld.isbn ∨ f = Fld.issn then Option.none else some "vdeh") := by
  simp only [ai_enrich_step]
  split
  · rw [setTag_tag_self]
  · split
    · rw [setTag_tag_self]
    · rw [setTag_tag_self]

/-- Value of a field after the title-year enrichment fold. -/
theorem ty_fold_val (v t : Record) (r : FusionResult) (f : Fld) :
    (allFields.foldl (ty_enrich_step v t) r).val f =
      (if (v.get f).notna then v.get f
       else if (t.get f).notna then t.get f else Value.none) := by
  refine foldl_proj_unique FusionResult.val (ty_enrich_step v t) _
    (fun r0 g0 f0 h => ty_enrich_step_val_ne v t r0 h)
    (fun r0 f0 => ty_enrich_step_val_self v t r0 f0) allFields (by decide) r f ?_
  cases f <;> decide

/-- Tag of a field after the title-year enrichment fold. -/
theorem ty_fold_tag (v t : Record) (r : FusionResult) (f : Fld) :
    (allFields.foldl (ty_enrich_step v t) r).tag f =
      (if (v.get f).notna then some "vdeh"
       else if (t.get f).notna then some "dnb_title_year" else Option.none) := by
  refine foldl_proj_unique FusionResult.tag (ty_enrich_step v t) _
    (fun r0 g0 f0 h => ty_enrich_step_tag_ne v t r0 h)
    (fun r0 f0 => ty_enrich_step_tag_self v t r0 f0) allFields (by decide) r f ?_
  cases f <;> decide

/-- Value of a field after the arbitration enrichment fold. -/
theorem ai_fold_val (v d : Record) (cf : List (Fld × String)) (sv : String)
    (r : FusionResult) (f : Fld) :
    (allFields.foldl (ai_enrich_step v d cf sv) r).val f =
      (if (v.get f).notna then v.get f
       else if (d.get f).notna then d.get f else Value.none) := by
  refine foldl_proj_unique FusionResult.val (ai_enrich_step v d cf sv) _
    (fun r0 g0 f0 h => ai_enrich_step_val_ne v d cf sv r0 h)
    (fun r0 f0 => ai_enrich_step_val_self v d cf sv r0 f0) allFields (by decide) r f ?_
  cases f <;> decide

/-- Tag of a field after the arbitration enrichment fold. -/
theorem ai_fold_tag (v d : Record) (cf : List (Fld × String)) (sv : String)
    (r : FusionResult) (f : Fld) :
    (allFields.foldl (ai_enrich_step v d cf sv) r).tag f =
      (if (v.get f).notna then
        some (if (d.get f).notna ∧ cf.any (fun p => p.1 = f) then "confirmed" else "vdeh")
       else if (d.get f).notna then some sv
       else if f = Fld.isbn ∨ f = Fld.issn then Option.none else some "vdeh") := by
  refine foldl_proj_unique FusionResult.tag (ai_enrich_step v d cf sv) _
    (fun r0 g0 f0 h => ai_enrich_step_tag_ne v d cf sv r0 h)
    (fun r0 f0 => ai_enrich_step_tag_self v d cf sv r0 f0) allFields (by decide) r f ?_
  cases f <;> decide

/-! ## Bounds of the SequenceMatcher algorithm

The dynamic program only ever proposes blocks that fit inside the region
`a[alo:ahi] × b[blo:bhi]`; from this the total matched size is bounded by
both region lengths, which gives `ratio ∈ [0, 1]`. -/

/-- A candidate best block `(besti, bestj, bestsize)` lies inside the
region. -/
def validBest (alo ahi blo bhi : Nat) (t : Nat × Nat × Nat) : Prop :=
  alo ≤ t.1 ∧ t.1 + t.2.2 ≤ ahi ∧ blo ≤ t.2.1 ∧ t.2.1 + t.2.2 ≤ bhi

theorem lookup_mem {β : Type} {m : List (Nat × β)} {key : Nat} {v : β}
    (h : m.lookup key = some v) : (key, v) ∈ m := by
  induction m with
  | nil => cases h
  | cons p rest ih =>
      obtain ⟨a0, b0⟩ := p
      simp only [List.lookup] at h
      split at h
      · rename_i hbeq
        obtain rfl : key = a0 := eq_of_beq hbeq
        cases h
        exact List.mem_cons_self _ _
      · exact List.mem_cons_of_mem _ (ih h)

theorem flmInner_valid (i alo ahi blo bhi : Nat) (j2len : List (Nat × Nat))
    (hia : alo ≤ i) (hi2 : i < ahi)
    (hPrev : ∀ jk ∈ j2len, blo ≤ jk.1 ∧ jk.2 + blo ≤ jk.1 + 1 ∧ jk.2 + alo ≤ i) :
    ∀ (js : List Nat) (acc : List (Nat × Nat)) (best : Nat × Nat × Nat),
      (∀ j ∈ js, blo ≤ j ∧ j < bhi) →
      (∀ jk ∈ acc, blo ≤ jk.1 ∧ jk.2 + blo ≤ jk.1 + 1 ∧ jk.2 + alo ≤ i + 1) →
      validBest alo ahi blo bhi best →
      (∀ jk ∈ (flmInner i j2len js acc best).1,
        blo ≤ jk.1 ∧ jk.2 + blo ≤ jk.1 + 1 ∧ jk.2 + alo ≤ i + 1) ∧
      validBest alo ahi blo bhi (flmInner i j2len js acc best).2 := by
  intro js
  induction js with
  | nil => intro acc best _ hacc hbest; exact ⟨hacc, hbest⟩
  | cons j js ih =>
      intro acc best hjs hacc hbest
      have hj := hjs j (List.mem_cons_self _ _)
      have hk : j2get j2len j + 1 + blo ≤ j + 1 ∧ j2get j2len j + 1 + alo ≤ i + 1 := by
        unfold j2get
        split
        · omega
        · cases hl : (j2len.lookup (j - 1)) with
          | none => simp only [hl, Option.getD_none]; omega
          | some k0 =>
              have hb := hPrev _ (lookup_mem hl)
              simp only [hl, Option.getD_some]
              rename_i hj0
              omega
      simp only [flmInner]
      apply ih
      · intro j0 hj0; exact hjs j0 (List.mem_cons_of_mem _ hj0)
      · intro jk hjk
        rcases List.mem_append.mp hjk with hin | hnew
        · exact hacc jk hin
        · have : jk = (j, j2get j2len j + 1) := List.mem_singleton.mp hnew
          subst this
          exact ⟨hj.1, hk.1, hk.2⟩
      · split
        · rename_i hgt
          refine ⟨?_, ?_, ?_, ?_⟩ <;> simp only <;> omega
        · exact hbest

theorem flmOuter_valid (a b : List Char) (alo ahi blo bhi : Nat) :
    ∀ (is : List Nat) (m : List (Nat × Nat)) (best : Nat × Nat × Nat),
      is.Pairwise (· < ·) →
      (∀ i ∈ is, alo ≤ i ∧ i < ahi) →
      (∀ jk ∈ m, blo ≤ jk.1 ∧ jk.2 + blo ≤ jk.1 + 1 ∧ ∀ i ∈ is, jk.2 + alo ≤ i) →
      validBest alo ahi blo bhi best →
      validBest alo ahi blo bhi (flmOuter a b blo bhi is m best) := by
  intro is
  induction is with
  | nil => intro m best _ _ _ hbest; exact hbest
  | cons i is ih =>
      intro m best hpw his hm hbest
      have hi := his i (List.mem_cons_self _ _)
      have hinner := flmInner_valid i alo ahi blo bhi m hi.1 hi.2
        (fun jk hjk => ⟨(hm jk hjk).1, (hm jk hjk).2.1,
          (hm jk hjk).2.2 i (List.mem_cons_self _ _)⟩)
        ((b2jEntry b ((a.get? i).getD ' ')).filter (fun j => blo ≤ j ∧ j < bhi))
        [] best
        (by intro j0 hj0
            have := (List.mem_filter.mp hj0).2
            simpa using this)
        (by intro jk hjk; cases hjk)
        hbest
      simp only [flmOuter]
      rcases hfi : flmInner i m
        ((b2jEntry b ((a.get? i).getD ' ')).filter (fun j => decide (blo ≤ j ∧ j < bhi)))
        [] best with ⟨row, best2⟩
      rw [hfi] at hinner
      apply ih
      · exact hpw.of_cons
      · exact fun i0 hi0 => his i0 (List.mem_cons_of_mem _ hi0)
      · intro jk hjk
        refine ⟨(hinner.1 jk hjk).1, (hinner.1 jk hjk).2.1, ?_⟩
        intro i0 hi0
        have hlt : i < i0 := List.rel_of_pairwise_cons hpw hi0
        have := (hinner.1 jk hjk).2.2
        omega
      · exact hinner.2

theorem flmExtendFront_valid (a b : List Char) (alo blo ahi bhi : Nat) :
    ∀ (fuel : Nat) (t : Nat × Nat × Nat), validBest alo ahi blo bhi t →
      validBest alo ahi blo bhi (flmExtendFront a b alo blo fuel t) := by
  intro fuel
  induction fuel with
  | zero => intro t hv; exact hv
  | succ n ih =>
      intro t hv
      obtain ⟨bi, bj, k⟩ := t
      simp only [flmExtendFront]
      split
      · rename_i hcond
        refine ih (bi - 1, bj - 1, k + 1) ?_
        obtain ⟨h1, h2, h3, h4⟩ := hv
        refine ⟨?_, ?_, ?_, ?_⟩ <;> simp only at h1 h2 h3 h4 ⊢ <;> omega
      · exact hv

theorem flmExtendBack_valid (a b : List Char) (alo blo ahi bhi : Nat) :
    ∀ (fuel : Nat) (t : Nat × Nat × Nat), validBest alo ahi blo bhi t →
      validBest alo ahi blo bhi (flmExtendBack a b ahi bhi fuel t) := by
  intro fuel
  induction fuel with
  | zero => intro t hv; exact hv
  | succ n ih =>
      intro t hv
      obtain ⟨bi, bj, k⟩ := t
      simp only [flmExtendBack]
      split
      · rename_i hcond
        refine ih (bi, bj, k + 1) ?_
        obtain ⟨h1, h2, h3, h4⟩ := hv
        refine ⟨?_, ?_, ?_, ?_⟩ <;> simp only at h1 h2 h3 h4 hcond ⊢ <;> omega
      · exact hv

theorem findLongestMatch_valid (a b : List Char) (alo ahi blo bhi : Nat)
    (h1 : alo ≤ ahi) (h2 : blo ≤ bhi) :
    validBest alo ahi blo bhi (findLongestMatch a b alo ahi blo bhi) := by
  unfold findLongestMatch
  have hcore : validBest alo ahi blo bhi
      (flmOuter a b blo bhi (List.range' alo (ahi - alo)) [] (alo, blo, 0)) := by
    apply flmOuter_valid
    · exact List.pairwise_lt_range' alo (ahi - alo)
    · intro i hi
      have := List.mem_range'_1.mp hi
      omega
    · intro jk hjk; cases hjk
    · exact ⟨Nat.le_refl alo, by simpa using h1, Nat.le_refl blo, by simpa using h2⟩
  exact flmExtendBack_valid a b alo blo ahi bhi ahi _
    (flmExtendFront_valid a b alo blo ahi bhi _ _ hcore)

theorem matchedTotal_le (a b : List Char) :
    ∀ (fuel alo ahi blo bhi : Nat), alo ≤ ahi → blo ≤ bhi →
      matchedTotal a b fuel alo ahi blo bhi ≤ ahi - alo ∧
      matchedTotal a b fuel alo ahi blo bhi ≤ bhi - blo := by
  intro fuel
  induction fuel with
  | zero => intro alo ahi blo bhi _ _; simp [matchedTotal]
  | succ n ih =>
      intro alo ahi blo bhi h1 h2
      have hv := findLongestMatch_valid a b alo ahi blo bhi h1 h2
      rcases hflm : findLongestMatch a b alo ahi blo bhi with ⟨bi, bj, k⟩
      rw [hflm] at hv
      obtain ⟨hv1, hv2, hv3, hv4⟩ := hv
      simp only at hv1 hv2 hv3 hv4
      simp only [matchedTotal, hflm]
      split
      · omega
      · have hL := ih alo bi blo bj hv1 hv3
        have hR := ih (bi + k) ahi (bj + k) bhi hv2 hv4
        omega

theorem matcherScore_nonneg (sa sb : String) : 0 ≤ matcherScore sa sb := by
  simp only [matcherScore]
  split
  · norm_num
  · rw [Rat.mkRat_eq_div]
    positivity

theorem matcherScore_le_one (sa sb : String) : matcherScore sa sb ≤ 1 := by
  simp only [matcherScore]
  split
  · norm_num
  · rename_i ht
    have hM := matchedTotal_le sa.data sb.data sa.data.length 0 sa.data.length 0
      sb.data.length (Nat.zero_le _) (Nat.zero_le _)
    have h2M : 2 * matchedTotal sa.data sb.data sa.data.length 0 sa.data.length 0
        sb.data.length ≤ sa.data.length + sb.data.length := by omega
    rw [Rat.mkRat_eq_div, div_le_one (by positivity)]
    exact_mod_cast h2M

/-! ## Further helper lemmas -/

/-- Folding field steps preserves any non-field attribute. -/
theorem foldl_preserve {α : Type} (π : FusionResult → α)
    (step : FusionResult → Fld → FusionResult)
    (hstep : ∀ r f, π (step r f) = π r) :
    ∀ (l : List Fld) (r : FusionResult), π (l.foldl step r) = π r := by
  intro l
  induction l with
  | nil => intro r; rfl
  | cons g rest ih =>
      intro r
      simp only [List.foldl_cons]
      rw [ih (step r g), hstep r g]

theorem setVal_rejected (r : FusionResult) (f : Fld) (v : Value) :
    (r.setVal f v).dnb_match_rejected = r.dnb_match_rejected := by
  cases f <;> rfl

theorem setTag_rejected (r : FusionResult) (f : Fld) (t : Option String) :
    (r.setTag f t).dnb_match_rejected = r.dnb_match_rejected := by
  cases f <;> rfl

theorem setVal_variant (r : FusionResult) (f : Fld) (v : Value) :
    (r.setVal f v).dnb_variant_selected = r.dnb_variant_selected := by
  cases f <;> rfl

theorem setTag_variant (r : FusionResult) (f : Fld) (t : Option String) :
    (r.setTag f t).dnb_variant_selected = r.dnb_variant_selected := by
  cases f <;> rfl

theorem ty_step_rejected (v t : Record) (r : FusionResult) (f : Fld) :
    (ty_enrich_step v t r f).dnb_match_rejected = r.dnb_match_rejected := by
  simp only [ty_enrich_step]
  split
  · rw [setTag_rejected, setVal_rejected]
  · split
    · rw [setTag_rejected, setVal_rejected]
    · rw [setTag_rejected, setVal_rejected]

theorem ty_step_variant (v t : Record) (r : FusionResult) (f : Fld) :
    (ty_enrich_step v t r f).dnb_variant_selected = r.dnb_variant_selected := by
  simp only [ty_enrich_step]
  split
  · rw [setTag_variant, setVal_variant]
  · split
    · rw [setTag_variant, setVal_variant]
    · rw [setTag_variant, setVal_variant]

/-- Decidable equality for `Except` results (needed to evaluate the
engine's `Except`-valued functions in concrete theorems). -/
instance {α β : Type} [DecidableEq α] [DecidableEq β] :
    DecidableEq (Except α β) := fun a b =>
  match a, b with
  | .error e1, .error e2 =>
      match decEq e1 e2 with
      | isTrue h => isTrue (by rw [h])
      | isFalse h => isFalse (by intro he; cases he; exact h rfl)
  | .error _, .ok _ => isFalse (by intro he; cases he)
  | .ok _, .error _ => isFalse (by intro he; cases he)
  | .ok v1, .ok v2 =>
      match decEq v1 v2 with
      | isTrue h => isTrue (by rw [h])
      | isFalse h => isFalse (by intro he; cases he; exact h rfl)

/-- Sample inputs used by the concrete witnesses and counterexamples. -/
def cfgDefault : FusionConfig := ⟨mkRat 7 10, true⟩

/-- A record carrying only a title. -/
def recTitleOnly (s : String) : Record :=
  ⟨.str s, .none, .none, .none, .none, .none, .none⟩

/-! ## Claims -/

/-- Claim C8 (amended): `calculate_title_similarity` always lies in
`[0, 1]` and is `0.0` when either input is the empty string; symmetry,
however, does not hold in general (see the counterexample). -/
theorem c8_similarity_range (sa sb : String) :
    0 ≤ calculate_title_similarity (.str sa) (.str sb) ∧
    calculate_title_similarity (.str sa) (.str sb) ≤ 1 ∧
    ((sa = "" ∨ sb = "") → calculate_title_similarity (.str sa) (.str sb) = 0) := by
  simp only [calculate_title_similarity]
  split
  · exact ⟨le_refl 0, by norm_num, fun _ => rfl⟩
  · rename_i h
    refine ⟨matcherScore_nonneg _ _, matcherScore_le_one _ _, ?_⟩
    intro hemp
    rcases hemp with rfl | rfl <;> simp [Value.truthy] at h

/-- Claim C8 witness: the zero-on-empty clause at a concrete input. -/
theorem c8_similarity_range_witness :
    calculate_title_similarity (.str "") (.str "x") = 0 :=
  (c8_similarity_range "" "x").2.2 (Or.inl rfl)

/-- Claim C8 counterexample: `SequenceMatcher.ratio` — and hence
`calculate_title_similarity` — is not symmetric: `("ab", "bacb")` scores
2/3 one way and 1/3 the other (matching CPython's difflib). -/
theorem c8_similarity_asymmetric :
    calculate_title_similarity (.str "ab") (.str "bacb") = mkRat 2 3 ∧
    calculate_title_similarity (.str "bacb") (.str "ab") = mkRat 1 3 ∧
    calculate_title_similarity (.str "ab") (.str "bacb") ≠
      calculate_title_similarity (.str "bacb") (.str "ab") := by
  refine ⟨by decide, by decide, by decide⟩

/-- Claim C10: a response whose stripped upper-cased form begins with
`A&B` parses to choice `A` with a reason announcing that both fit and the
ID-based variant is preferred. -/
theorem c10_a_and_b_tiebreak (s : String) (h1 : s ≠ "")
    (h2 : pyStartsWith (pyUpper (pyStrip s)) "A&B" = true) :
    (parse_ai_choice (some s)).1 = "A" ∧
    ∃ rest, (parse_ai_choice (some s)).2 = "Beide passend, ID bevorzugt. " ++ rest := by
  simp only [parse_ai_choice]
  rw [if_neg h1, if_pos h2]
  exact ⟨rfl, _, rfl⟩

/-- Claim C10 witness. -/
theorem c10_a_and_b_tiebreak_witness :
    (parse_ai_choice (some "A&B - beide passen gut")).1 = "A" ∧
    ∃ rest, (parse_ai_choice (some "A&B - beide passen gut")).2 =
      "Beide passend, ID bevorzugt. " ++ rest :=
  c10_a_and_b_tiebreak "A&B - beide passen gut" (by decide) (by decide)

/-- Claim C7 (code bug): `validate_dnb_match` is not total — when both
page strings are `pd.notna` but falsy (here the empty string) and every
check passes, the reasons block reads the never-assigned local
`pages_diff` and raises `UnboundLocalError` instead of returning a
`(bool, reason)` pair. -/
theorem c7_validator_crash :
    validate_dnb_match
      ⟨.str "abc", .none, .none, .none, .str "", .none, .none⟩
      ⟨.str "abc", .none, .none, .none, .str "", .none, .none⟩ =
    .error "UnboundLocalError: cannot access local variable pages_diff where it is not associated with a value" := by
  decide

/-- Claim C5 (code bug): `merge_record` does not survive every
arbitration response.  With only the DNB-ID variant available, the
response `"B - passt gut"` parses to choice `B`, `variant_mapping` hands
back the unavailable (`None`) `dnb_ta` dictionary, and
`validate_dnb_match(vdeh_data, None)` raises `AttributeError`. -/
theorem c5_crash_on_unavailable_letter :
    merge_record cfgDefault (recTitleOnly "a") (recTitleOnly "a")
      Record.empty Record.empty Record.empty Record.empty Record.empty
      (some "B - passt gut") =
    .error "AttributeError: NoneType object has no attribute get" := by
  decide

/-- Claim C9: on a trace of pure transport failures, `query` performs
exactly `max_retries` attempts, sleeping `min(base * 2**attempt, 15)`
after each one (delay doubling, capped at 15s), and then raises the
distinguished `OllamaUnavailableError` in hard-fail mode or returns
`None` in soft-fail mode. -/
theorem c9_retry_backoff (max_retries base : Nat) (abort : Bool)
    (attempts : Nat → OllamaAttempt)
    (h : ∀ i, i < max_retries → (attempts i).isTransportFailure = true) :
    ollama_query max_retries base abort attempts =
      ((if abort then
          QueryOutcome.unavailable ("Ollama unavailable after " ++
            toString max_retries ++ " attempts: " ++
            (if max_retries = 0 then "None"
             else attemptErrStr (attempts (max_retries - 1))))
        else QueryOutcome.ok Option.none),
       (List.range max_retries).map (fun i => min (base * 2 ^ i) 15)) := by
  have hloop : ∀ (n s : Nat) (last : Option String) (ws : List Nat),
      (∀ i, s ≤ i → i < s + n → (attempts i).isTransportFailure = true) →
      query_loop attempts base s n last ws =
        (Option.none,
         (if n = 0 then last else some (attemptErrStr (attempts (s + n - 1)))),
         ws ++ (List.range' s n).map (fun i => min (base * 2 ^ i) 15)) := by
    intro n
    induction n with
    | zero => intro s last ws _; simp [query_loop]
    | succ m ih =>
        intro s last ws hfail
        have h0 := hfail s (Nat.le_refl s) (by omega)
        cases ha : attempts s with
        | httpOk body => rw [ha] at h0; cases h0
        | httpErr st => rw [ha] at h0; cases h0
        | otherError msg => rw [ha] at h0; cases h0
        | connError =>
            simp only [query_loop, ha]
            rw [ih (s + 1) (some (attemptErrStr OllamaAttempt.connError))
              (ws ++ [min (base * 2 ^ s) 15])
              (fun i h1 h2 => hfail i (by omega) (by omega))]
            cases m with
            | zero => simp [ha, List.range'_succ]
            | succ m0 =>
                have hidx : s + 1 + (m0 + 1) - 1 = s + (m0 + 1 + 1) - 1 := by omega
                simp [List.range'_succ, hidx]
        | timeout =>
            simp only [query_loop, ha]
            rw [ih (s + 1) (some (attemptErrStr OllamaAttempt.timeout))
              (ws ++ [min (base * 2 ^ s) 15])
              (fun i h1 h2 => hfail i (by omega) (by omega))]
            cases m with
            | zero => simp [ha, List.range'_succ]
            | succ m0 =>
                have hidx : s + 1 + (m0 + 1) - 1 = s + (m0 + 1 + 1) - 1 := by omega
                simp [List.range'_succ, hidx]
  unfold ollama_query
  rw [hloop max_retries 0 Option.none [] (fun i h1 h2 => h i (by omega))]
  cases hn : max_retries with
  | zero => cases abort <;> simp [List.range_eq_range']
  | succ m =>
      cases abort <;>
        simp [List.range_eq_range', Option.getD, Nat.zero_add]

/-- Claim C9 witness: four timeouts with base 2 sleep 2, 4, 8, then the
15s cap; hard-fail raises the distinguished error, soft-fail yields
`None`. -/
theorem c9_retry_backoff_witness :
    ollama_query 4 2 true (fun _ => OllamaAttempt.timeout) =
      (QueryOutcome.unavailable "Ollama unavailable after 4 attempts: timeout",
        [2, 4, 8, 15]) ∧
    ollama_query 4 2 false (fun _ => OllamaAttempt.timeout) =
      (QueryOutcome.ok Option.none, [2, 4, 8, 15]) := by
  constructor
  · rw [c9_retry_backoff 4 2 true (fun _ => OllamaAttempt.timeout) (fun i _ => rfl)]
    rfl
  · rw [c9_retry_backoff 4 2 false (fun _ => OllamaAttempt.timeout) (fun i _ => rfl)]
    rfl

/-- Enrichment preservation on the title-year path. -/
theorem ty_fallback_val_pop (cfg : FusionConfig) (v t : Record) (f : Fld)
    (h : (v.get f).notna = true) : (ty_fallback cfg v t).val f = v.get f := by
  simp only [ty_fallback]
  split
  · cases f <;> rfl
  · rw [ty_fold_val, if_pos h]

/-- Tag non-nullity on the title-year path. -/
theorem ty_fallback_tag_of_val (cfg : FusionConfig) (v t : Record) (f : Fld)
    (h : ((ty_fallback cfg v t).val f).notna = true) :
    (ty_fallback cfg v t).tag f ≠ Option.none := by
  simp only [ty_fallback] at h ⊢
  split
  · intro hco
    cases f <;> exact Option.noConfusion hco
  · rename_i hcond
    rw [if_neg hcond] at h
    rw [ty_fold_tag]
    rw [ty_fold_val] at h
    by_cases h1 : (v.get f).notna = true
    · rw [if_pos h1]; exact fun hco => Option.noConfusion hco
    · rw [if_neg h1] at h ⊢
      by_cases h2 : (t.get f).notna = true
      · rw [if_pos h2]; exact fun hco => Option.noConfusion hco
      · rw [if_neg h2] at h
        exact absurd h (by simp [Value.notna, Value.isna])

/-- Enrichment preservation and tag non-nullity on the arbitration path. -/
theorem ai_select_ok_facts (v : Record) (a b c d e f : Option Record)
    (resp : Option String) (r : FusionResult)
    (hok : ai_select v a b c d e f resp = .ok r) (fld : Fld) :
    ((v.get fld).notna = true → r.val fld = v.get fld) ∧
    ((r.val fld).notna = true → r.tag fld ≠ Option.none) := by
  simp only [ai_select] at hok
  split at hok
  · exact Except.noConfusion hok
  · split at hok
    · injection hok with h
      subst h
      constructor
      · intro _; cases fld <;> rfl
      · intro _ hco; cases fld <;> exact Option.noConfusion hco
    · split at hok
      · exact Except.noConfusion hok
      · split at hok
        · exact Except.noConfusion hok
        · split at hok
          · injection hok with h
            subst h
            constructor
            · intro _; cases fld <;> rfl
            · intro _ hco; cases fld <;> exact Option.noConfusion hco
          · injection hok with h
            subst h
            constructor
            · intro hpop
              rw [ai_fold_val, if_pos hpop]
            · intro hval
              rw [ai_fold_tag]
              rw [ai_fold_val] at hval
              split at hval
              · rename_i h1
                rw [if_pos h1]
                exact fun hco => Option.noConfusion hco
              · split at hval
                · rename_i h1 h2
                  rw [if_neg h1, if_pos h2]
                  exact fun hco => Option.noConfusion hco
                · exact absurd hval (by simp [Value.notna, Value.isna])

/-- Claim C1: enrichment-only invariant — on every terminating path of
`merge_record` (no-data, gate accept/reject, arbitration accept/reject/
validation-fail), a field that is populated (`pd.notna`) in the source
record comes back with exactly the source's value. -/
theorem c1_enrichment_only (cfg : FusionConfig)
    (v a0 b0 c0 d0 e0 f0 : Record) (resp : Option String)
    (r : FusionResult) (fld : Fld)
    (hok : merge_record cfg v a0 b0 c0 d0 e0 f0 resp = .ok r)
    (hpop : (v.get fld).notna = true) :
    r.val fld = v.get fld := by
  simp only [merge_record] at hok
  split at hok
  · injection hok with h; subst h; exact source_only_val v fld
  · rw [ty_fallback_run_ok hok]; exact ty_fallback_val_pop cfg v _ fld hpop
  · injection hok with h; subst h; exact source_only_val v fld
  · exact (ai_select_ok_facts v _ _ _ _ _ _ resp r hok fld).1 hpop

/-- Claim C1 witness: the title-year enrichment path at Scenario 1-style
data — the populated source title survives. -/
theorem c1_enrichment_only_witness :
    (ty_fallback cfgDefault (recTitleOnly "stahlbau") (recTitleOnly "stahlbau")).val
      Fld.title = (recTitleOnly "stahlbau").get Fld.title :=
  c1_enrichment_only cfgDefault (recTitleOnly "stahlbau") Record.empty Record.empty
    (recTitleOnly "stahlbau") Record.empty Record.empty Record.empty Option.none
    (ty_fallback cfgDefault (recTitleOnly "stahlbau") (recTitleOnly "stahlbau"))
    Fld.title (by decide) (by decide)

/-- Claim C2 (amended): one direction of the tag/value invariant holds —
every field with a non-null value carries a non-null source tag — but the
converse fails: source-only results tag all seven fields `'vdeh'` even
when the value is null, and the arbitration merge tags a both-empty field
`'vdeh'` unless it is isbn/issn; only the title-year enrichment path
gives both-empty fields a null tag. -/
theorem c2_value_implies_tag (cfg : FusionConfig)
    (v a0 b0 c0 d0 e0 f0 : Record) (resp : Option String)
    (r : FusionResult) (fld : Fld)
    (hok : merge_record cfg v a0 b0 c0 d0 e0 f0 resp = .ok r)
    (hval : (r.val fld).notna = true) :
    r.tag fld ≠ Option.none := by
  simp only [merge_record] at hok
  split at hok
  · injection hok with h; subst h
    intro hco; cases fld <;> exact Option.noConfusion hco
  · rw [ty_fallback_run_ok hok] at hval ⊢
    exact ty_fallback_tag_of_val cfg v _ fld hval
  · injection hok with h; subst h
    intro hco; cases fld <;> exact Option.noConfusion hco
  · exact (ai_select_ok_facts v _ _ _ _ _ _ resp r hok fld).2 hval

/-- Claim C2 witness: the forward direction at a concrete no-data run. -/
theorem c2_value_implies_tag_witness :
    (source_only (recTitleOnly "x")).tag Fld.title ≠ Option.none :=
  c2_value_implies_tag cfgDefault (recTitleOnly "x") Record.empty Record.empty
    Record.empty Record.empty Record.empty Record.empty Option.none
    (source_only (recTitleOnly "x")) Fld.title (by decide) (by decide)

/-- Claim C2 counterexample: the invariant's other direction is false —
with no external data, `merge_record` tags the null `authors` field
`'vdeh'`: a null value with a non-null source tag. -/
theorem c2_counterexample :
    merge_record cfgDefault (recTitleOnly "x") Record.empty Record.empty
      Record.empty Record.empty Record.empty Record.empty Option.none =
      .ok (source_only (recTitleOnly "x")) ∧
    (source_only (recTitleOnly "x")).authors = Value.none ∧
    (source_only (recTitleOnly "x")).authors_source = some "vdeh" :=
  ⟨by decide, rfl, rfl⟩

/-- Claim C3 (amended): the title-year gate fires exactly when the DNB
ID and DNB title-author variants are unavailable and the DNB title-year
variant is available — the LoC slots play no role in the routing — and on
the gate path `merge_record` never consults the arbitration oracle (the
result is independent of the response). -/
theorem c3_routing (cfg : FusionConfig) (v a0 b0 c0 d0 e0 f0 : Record)
    (r1 r2 : Option String) :
    (merge_case (dnb_collapse a0) (dnb_collapse b0) (dnb_collapse c0)
        (loc_collapse cfg d0) (loc_collapse cfg e0) (loc_collapse cfg f0) =
        MergeCase.tyGate ↔
      (a0.available = false ∧ b0.available = false ∧ c0.available = true)) ∧
    (merge_case (dnb_collapse a0) (dnb_collapse b0) (dnb_collapse c0)
        (loc_collapse cfg d0) (loc_collapse cfg e0) (loc_collapse cfg f0) =
        MergeCase.tyGate →
      merge_record cfg v a0 b0 c0 d0 e0 f0 r1 =
        merge_record cfg v a0 b0 c0 d0 e0 f0 r2) := by
  constructor
  · cases ha : a0.available <;> cases hb : b0.available <;> cases hc : c0.available <;>
      simp [merge_case, dnb_collapse, ha, hb, hc] <;> split <;> simp
  · intro hcase
    simp only [merge_record]
    rw [hcase]
    rcases hq : dnb_collapse c0 with _ | ty
    · rfl
    · rfl

/-- Claim C3 witness: with only a DNB title-year variant, the response is
never consulted. -/
theorem c3_routing_witness :
    merge_record cfgDefault (recTitleOnly "x") Record.empty Record.empty
      (recTitleOnly "x") Record.empty Record.empty Record.empty (some "A - egal") =
    merge_record cfgDefault (recTitleOnly "x") Record.empty Record.empty
      (recTitleOnly "x") Record.empty Record.empty Record.empty Option.none :=
  (c3_routing cfgDefault (recTitleOnly "x") Record.empty Record.empty
    (recTitleOnly "x") Record.empty Record.empty Record.empty
    (some "A - egal") Option.none).2 (by decide)

/-- Claim C3 counterexample: an available LoC-ID variant does not force
arbitration — with DNB title-year plus LoC-ID available the engine still
runs the gate (and ignores the oracle), and with only a LoC title-year
variant available it arbitrates instead of gating. -/
theorem c3_routing_counterexample :
    merge_case (dnb_collapse Record.empty) (dnb_collapse Record.empty)
      (dnb_collapse (recTitleOnly "x")) (loc_collapse cfgDefault (recTitleOnly "y"))
      (loc_collapse cfgDefault Record.empty) (loc_collapse cfgDefault Record.empty) =
      MergeCase.tyGate ∧
    loc_collapse cfgDefault (recTitleOnly "y") ≠ Option.none ∧
    merge_record cfgDefault (recTitleOnly "x") Record.empty Record.empty
      (recTitleOnly "x") (recTitleOnly "y") Record.empty Record.empty
      (some "D - LoC passt") =
      merge_record cfgDefault (recTitleOnly "x") Record.empty Record.empty
        (recTitleOnly "x") (recTitleOnly "y") Record.empty Record.empty
        Option.none ∧
    merge_case (dnb_collapse Record.empty) (dnb_collapse Record.empty)
      (dnb_collapse Record.empty) (loc_collapse cfgDefault Record.empty)
      (loc_collapse cfgDefault Record.empty)
      (loc_collapse cfgDefault (recTitleOnly "y")) = MergeCase.aiSelect := by
  refine ⟨by decide, by decide, by decide, by decide⟩

/-- Claim C4 (amended): on the title-year-only path (default similarity
threshold 0.7), `merge_record` runs the gate.  The candidate is accepted
exactly on `similarity ≥ 0.7`, or `similarity ≥ 0.5` with a pages match
within tolerance, in which case the enrichment result is returned.  On
rejection, when neither title is a truthy non-string, the returned
result is the source-only record with `dnb_match_rejected`, the computed
similarity, the page difference, and a rejection reason recording both —
but a truthy non-string title (a pandas-missing title is float NaN) makes
the rejection log line raise `TypeError` instead of returning, the source
title being sliced first. -/
theorem c4_ty_gate_rule (cfg : FusionConfig) (v a0 b0 c0 d0 e0 f0 : Record)
    (resp : Option String)
    (hth : cfg.ty_similarity_threshold = mkRat 7 10)
    (ha : a0.available = false) (hb : b0.available = false)
    (hc : c0.available = true) :
    merge_record cfg v a0 b0 c0 d0 e0 f0 resp = ty_fallback_run cfg v c0 ∧
    ((calculate_title_similarity v.title c0.title ≥ mkRat 7 10 ∨
        (calculate_title_similarity v.title c0.title ≥ mkRat 1 2 ∧
          (calculate_pages_match v.pages c0.pages).1 = true)) →
      ty_fallback_run cfg v c0 = .ok (ty_fallback cfg v c0) ∧
      (ty_fallback cfg v c0).dnb_match_rejected = false ∧
      (ty_fallback cfg v c0).dnb_variant_selected = some "title_year") ∧
    (¬ (calculate_title_similarity v.title c0.title ≥ mkRat 7 10 ∨
        (calculate_title_similarity v.title c0.title ≥ mkRat 1 2 ∧
          (calculate_pages_match v.pages c0.pages).1 = true)) →
      (v.title.sliceTypeErr = Option.none → c0.title.sliceTypeErr = Option.none →
        ty_fallback_run cfg v c0 = .ok { source_only v with
          dnb_match_rejected := true,
          rejection_reason := some ("TY-Match zu unsicher (" ++
            ("Similarity: " ++ formatPct1 (calculate_title_similarity v.title c0.title) ++
              (match (calculate_pages_match v.pages c0.pages).2 with
               | some d => ", Pages mismatch: " ++ formatPct1 d ++ " diff"
               | Option.none => "")) ++ ")"),
          title_similarity_score := some (calculate_title_similarity v.title c0.title),
          pages_difference := (calculate_pages_match v.pages c0.pages).2 }) ∧
      (∀ e, v.title.sliceTypeErr = some e →
        ty_fallback_run cfg v c0 = .error e) ∧
      (∀ e, v.title.sliceTypeErr = Option.none → c0.title.sliceTypeErr = some e →
        ty_fallback_run cfg v c0 = .error e)) := by
  refine ⟨?_, ?_, ?_⟩
  · have hcase : merge_case (dnb_collapse a0) (dnb_collapse b0) (dnb_collapse c0)
        (loc_collapse cfg d0) (loc_collapse cfg e0) (loc_collapse cfg f0) =
        MergeCase.tyGate := by
      simp [merge_case, dnb_collapse, ha, hb, hc]
    simp only [merge_record]
    rw [hcase]
    have hq : dnb_collapse c0 = some c0 := by simp [dnb_collapse, hc]
    rw [hq]
  · intro hacc
    refine ⟨?_, ?_, ?_⟩
    · simp only [ty_fallback_run]
      rw [hth]
      rw [if_neg (not_not_intro hacc)]
    · simp only [ty_fallback]
      rw [hth]
      rw [if_neg (not_not_intro hacc)]
      rw [foldl_preserve (fun r => r.dnb_match_rejected) _ (ty_step_rejected v c0)]
      rfl
    · simp only [ty_fallback]
      rw [hth]
      rw [if_neg (not_not_intro hacc)]
      rw [foldl_preserve (fun r => r.dnb_variant_selected) _ (ty_step_variant v c0)]
  · intro hrej
    have hnorm : ty_fallback cfg v c0 = { source_only v with
        dnb_match_rejected := true,
        rejection_reason := some ("TY-Match zu unsicher (" ++
          ("Similarity: " ++ formatPct1 (calculate_title_similarity v.title c0.title) ++
            (match (calculate_pages_match v.pages c0.pages).2 with
             | some d => ", Pages mismatch: " ++ formatPct1 d ++ " diff"
             | Option.none => "")) ++ ")"),
        title_similarity_score := some (calculate_title_similarity v.title c0.title),
        pages_difference := (calculate_pages_match v.pages c0.pages).2 } := by
      simp only [ty_fallback]
      rw [hth]
      rw [if_pos hrej]
    refine ⟨?_, ?_, ?_⟩
    · intro hv hc0
      simp only [ty_fallback_run]
      rw [hth]
      rw [if_pos hrej, hv, hc0, hnorm]
    · intro e hv
      simp only [ty_fallback_run]
      rw [hth]
      rw [if_pos hrej, hv]
    · intro e hv hc0
      simp only [ty_fallback_run]
      rw [hth]
      rw [if_pos hrej, hv, hc0]

/-- Claim C4 witness: disjoint string titles with no pages are rejected
and returned with the similarity recorded; identical titles are
accepted. -/
theorem c4_ty_gate_rule_witness :
    ty_fallback_run cfgDefault (recTitleOnly "aaaa") (recTitleOnly "bbbb") =
      .ok { source_only (recTitleOnly "aaaa") with
        dnb_match_rejected := true,
        rejection_reason := some "TY-Match zu unsicher (Similarity: 0.0%)",
        title_similarity_score := some 0,
        pages_difference := Option.none } ∧
    (ty_fallback cfgDefault (recTitleOnly "aaaa") (recTitleOnly "aaaa")).dnb_match_rejected
      = false := by
  constructor
  · have h := ((c4_ty_gate_rule cfgDefault (recTitleOnly "aaaa") Record.empty
      Record.empty (recTitleOnly "bbbb") Record.empty Record.empty Record.empty
      Option.none rfl (by decide) (by decide) (by decide)).2.2 (by decide)).1
      (by decide) (by decide)
    rw [h]
    decide
  · exact ((c4_ty_gate_rule cfgDefault (recTitleOnly "aaaa") Record.empty
      Record.empty (recTitleOnly "aaaa") Record.empty Record.empty Record.empty
      Option.none rfl (by decide) (by decide) (by decide)).2.1 (by decide)).2.1

/-- A source record whose title is the pandas missing value, i.e. float
NaN: truthy, so the rejection log line slices it, but not a string. -/
def recNanTitle : Record :=
  ⟨.nan, .none, .none, .none, .none, .none, .none⟩

/-- Claim C4 counterexample: with a NaN source title (stringified to
"nan", similarity 0 against "xyzw") the gate rejects, and where the claim
demands the source-only rejection result, `merge_record` raises
`TypeError` from the log line slicing the title. -/
theorem c4_counterexample :
    ¬ (calculate_title_similarity recNanTitle.title (recTitleOnly "xyzw").title ≥
        mkRat 7 10 ∨
      (calculate_title_similarity recNanTitle.title (recTitleOnly "xyzw").title ≥
          mkRat 1 2 ∧
        (calculate_pages_match recNanTitle.pages (recTitleOnly "xyzw").pages).1 =
          true)) ∧
    merge_record cfgDefault recNanTitle Record.empty Record.empty
      (recTitleOnly "xyzw") Record.empty Record.empty Record.empty Option.none =
      .error "TypeError: float object is not subscriptable" := by
  decide

/-- Claim C6 (amended): `validate_dnb_match` rejects exactly when BOTH
titles are present (truthy) and (similarity < 0.5, or both years present
and numeric with difference > 2, or both page strings truthy with a
computed relative difference > 0.2).  When either title is missing the
validator accepts immediately, skipping the year and page checks — so a
missing field never by itself causes rejection.  And when the validator
rejects an arbitration-selected variant, `merge_record` returns the
source-only result with `dnb_match_rejected` and a reasoning noting that
the model's choice failed validation. -/
theorem c6_validator_rule :
    (∀ v d : Record,
      (∃ s, validate_dnb_match v d = .ok (false, s)) ↔
        (v.title.truthy = true ∧ d.title.truthy = true ∧
          (calculate_title_similarity v.title d.title < mkRat 1 2 ∨
           (∃ y1 y2 : Int, v.year.notna = true ∧ d.year.notna = true ∧
             v.year.pyInt = some y1 ∧ d.year.pyInt = some y2 ∧
             (y1 - y2).natAbs > 2) ∨
           (v.pages.truthy = true ∧ d.pages.truthy = true ∧
             ∃ q, (calculate_pages_match v.pages d.pages).2 = some q ∧
               q > mkRat 1 5)))) ∧
    (∀ (cfg : FusionConfig) (v a0 b0 c0 d0 e0 f0 : Record)
        (resp : Option String) (choice reason sv : String) (data : Record)
        (vr : String),
      merge_case (dnb_collapse a0) (dnb_collapse b0) (dnb_collapse c0)
        (loc_collapse cfg d0) (loc_collapse cfg e0) (loc_collapse cfg f0) =
        MergeCase.aiSelect →
      (∃ td, build_tracking_data v
        [("A", dnb_collapse a0), ("B", dnb_collapse b0), ("C", dnb_collapse c0),
         ("D", loc_collapse cfg d0), ("E", loc_collapse cfg e0),
         ("F", loc_collapse cfg f0)]
        (if (dnb_collapse a0).isSome ∨ (dnb_collapse b0).isSome ∨
            (loc_collapse cfg d0).isSome ∨ (loc_collapse cfg e0).isSome then
          "multiple_sources_available" else "no_ai_needed") = .ok td) →
      parse_ai_choice resp = (choice, reason) →
      choice ≠ "KEINE" →
      variant_mapping choice (dnb_collapse a0) (dnb_collapse b0) (dnb_collapse c0)
        (loc_collapse cfg d0) (loc_collapse cfg e0) (loc_collapse cfg f0) =
        (sv, some data) →
      validate_dnb_match v data = .ok (false, vr) →
      merge_record cfg v a0 b0 c0 d0 e0 f0 resp = .ok { source_only v with
        ai_reasoning := some ("KI wählte " ++ sv ++ ", aber Validierung fehlgeschlagen"),
        dnb_match_rejected := true,
        rejection_reason := some ("Validierung: " ++ vr) }) := by
  constructor
  · intro v d
    simp only [validate_dnb_match]
    split
    · rename_i hmiss
      constructor
      · rintro ⟨s, hs⟩
        simp at hs
      · rintro ⟨ht1, ht2, _⟩
        rcases hmiss with hm | hm
        · exact (hm ht1).elim
        · exact (hm ht2).elim
    · rename_i hmiss
      push_neg at hmiss
      split
      · rename_i hsim
        constructor
        · intro _
          exact ⟨hmiss.1, hmiss.2, Or.inl hsim⟩
        · intro _
          exact ⟨_, rfl⟩
      · rename_i hsim
        split
        · rename_i hyear
          constructor
          · intro _
            exact ⟨hmiss.1, hmiss.2, Or.inr (Or.inl ((year_reject_iff v d).mp hyear))⟩
          · intro _
            exact ⟨_, rfl⟩
        · rename_i hyear
          split
          · rename_i q0 hpr
            constructor
            · intro _
              have hc := (pages_reject_some_iff v d q0).mp hpr
              exact ⟨hmiss.1, hmiss.2,
                Or.inr (Or.inr ⟨hc.1, hc.2.1, q0, hc.2.2.1, hc.2.2.2⟩)⟩
            · intro _
              exact ⟨_, rfl⟩
          · rename_i hpr
            constructor
            · rintro ⟨s, hs⟩
              exfalso
              split at hs
              · split at hs
                · exact Except.noConfusion hs
                · simp at hs
              · simp at hs
            · rintro ⟨ht1, ht2, hbad⟩
              exfalso
              rcases hbad with hsim2 | hyb | ⟨pt1, pt2, q, hq, hgt⟩
              · exact hsim hsim2
              · exact hyear ((year_reject_iff v d).mpr hyb)
              · have h2 := (pages_reject_some_iff v d q).mpr ⟨pt1, pt2, hq, hgt⟩
                rw [hpr] at h2
                exact Option.noConfusion h2
  · intro cfg v a0 b0 c0 d0 e0 f0 resp choice reason sv data vr hcase htd hparse
      hkeine hmap hval
    obtain ⟨td, htd⟩ := htd
    have hred : merge_record cfg v a0 b0 c0 d0 e0 f0 resp =
        ai_select v (dnb_collapse a0) (dnb_collapse b0) (dnb_collapse c0)
          (loc_collapse cfg d0) (loc_collapse cfg e0) (loc_collapse cfg f0) resp := by
      simp only [merge_record]
      rw [hcase]
    rw [hred]
    simp only [ai_select]
    rw [htd]
    simp only [hparse, hmap, hval, if_neg hkeine]
    rfl

/-- A source record carrying only a year — no title, so the validator's
early-accept branch fires. -/
def recYearV : Record :=
  ⟨.none, .none, .int 1900, .none, .none, .none, .none⟩

/-- A candidate with a title and a year 100 years away from `recYearV`. -/
def recYearD : Record :=
  ⟨.str "x", .none, .int 2000, .none, .none, .none, .none⟩

/-- The rejection condition exactly as the claim words it: similarity
below 0.5, or both years present and numeric with difference above 2, or
both page counts present and parseable with relative difference above
0.2 — with no requirement that both titles be present for the year and
page clauses. -/
def validator_reject_per_claim (v d : Record) : Prop :=
  (v.title.truthy = true ∧ d.title.truthy = true ∧
    calculate_title_similarity v.title d.title < mkRat 1 2) ∨
  (∃ y1 y2 : Int, v.year.notna = true ∧ d.year.notna = true ∧
    v.year.pyInt = some y1 ∧ d.year.pyInt = some y2 ∧ (y1 - y2).natAbs > 2) ∨
  (v.pages.truthy = true ∧ d.pages.truthy = true ∧
    ∃ q, (calculate_pages_match v.pages d.pages).2 = some q ∧ q > mkRat 1 5)

/-- Claim C6 witness: titles "ab" and "xy" have similarity 0 and the
validator rejects; an arbitration run that selects that candidate then
yields the source-only validation-failure result. -/
theorem c6_validator_rule_witness :
    (∃ s, validate_dnb_match (recTitleOnly "ab") (recTitleOnly "xy") =
      .ok (false, s)) ∧
    merge_record cfgDefault (recTitleOnly "ab") (recTitleOnly "xy") Record.empty
      Record.empty Record.empty Record.empty Record.empty (some "A - passt") =
      .ok { source_only (recTitleOnly "ab") with
        ai_reasoning := some "KI wählte dnb_id, aber Validierung fehlgeschlagen",
        dnb_match_rejected := true,
        rejection_reason :=
          some "Validierung: Titel zu unterschiedlich (Similarity: 0.0%)" } :=
  ⟨(c6_validator_rule.1 (recTitleOnly "ab") (recTitleOnly "xy")).mpr
      ⟨by decide, by decide, Or.inl (by decide)⟩,
   c6_validator_rule.2 cfgDefault (recTitleOnly "ab") (recTitleOnly "xy")
      Record.empty Record.empty Record.empty Record.empty Record.empty
      (some "A - passt") "A" "passt" "dnb_id" (recTitleOnly "xy")
      "Titel zu unterschiedlich (Similarity: 0.0%)" (by decide) ⟨_, rfl⟩
      (by decide) (by decide) (by decide) (by decide)⟩

/-- Claim C6 counterexample: the claim's rejection condition holds (both
years present, difference 100 > 2), yet `validate_dnb_match` accepts,
because the missing source title short-circuits every check. -/
theorem c6_counterexample :
    validator_reject_per_claim recYearV recYearD ∧
    validate_dnb_match recYearV recYearD =
      .ok (true, "Titel fehlt - keine Validierung möglich") :=
  ⟨Or.inr (Or.inl ⟨1900, 2000, by decide, by decide, by decide, by decide,
      by decide⟩),
   by decide⟩
